import Mathlib

/-!
# MINECRAFT-AI: the chat bot of `index.js`

A shallow embedding of the class `MinecraftBot` of `index.js`: its session
state, the chat listeners, the AI gateway with its three adapters, the
conversation history, the outbound chunking of `sendResponse` and the
movement commands.

Conventions of the embedding.

* A JavaScript string is a list of characters (`JSString`); string literals of
  the source are written `"...".toList`. `length` counts list elements, which is
  the JavaScript length for text of the Basic Multilingual Plane. A character
  beyond that plane counts for two in JavaScript: text with such characters is
  not covered.
* `toLowerCase` / `toUpperCase` map the ASCII letters and leave every other
  character as it is. JavaScript also maps the cased letters outside ASCII
  (`É` to `é`, the Kelvin sign to `k`): text with such letters is not covered.
* The regular expression built from the bot's name is embedded for names it
  reads literally (`isLiteralName`): letters, digits and underscores.
* A property read on an object literal or on the player list follows the
  prototype chain: the names of `objectPrototypeProperties` are always found.
* A handler is a function from the session state to an `Outcome`: the value it
  returns or the error it throws, the state it leaves, and the calls it made on
  the game client, the pathfinder and the HTTP client, in order.
* What the game client and the backends answer is input: it is read from a
  `World` value.
* A handler runs to its end in one piece: the interleaving of other events at
  the `await` of a request is not part of the embedding. Timers are recorded
  as calls (`setTimeout`, `setInterval`), and the callback of the follow timer
  is the handler `followTick`.
* Coordinates are rational numbers; `Math.floor` is `Rat.floor`.
* A process lifetime is a sequence of runs of listeners and timer callbacks
  (`Listener`, `runListeners`), each in the world it finds. The run of the
  `spawn` listener is the part of `handleAuthentication` after its delay.
-/

namespace MinecraftAI

/-! ## Strings -/

/-- A JavaScript string, as the list of its characters. -/
abbrev JSString := List Char

/-- The method `String.prototype.toLowerCase`, for text whose cased letters are ASCII:
`A` to `Z` are mapped, every other character is kept. -/
def toLowerCase (s : JSString) : JSString := s.map Char.toLower

/-- The method `String.prototype.toUpperCase`, for text whose cased letters are ASCII:
`a` to `z` are mapped, every other character is kept. -/
def toUpperCase (s : JSString) : JSString := s.map Char.toUpper

/-- The line terminators of ECMAScript: LF, CR, LS and PS. These are the characters
that `.` does not match in a regular expression without the `s` flag. -/
def isLineTerminator (c : Char) : Bool :=
  c.toNat = 0x0A || c.toNat = 0x0D || c.toNat = 0x2028 || c.toNat = 0x2029

/-- The characters removed by `String.prototype.trim`: ECMAScript white space and
line terminators. -/
def isTrimmable (c : Char) : Bool :=
  c.toNat = 0x09 || c.toNat = 0x0A || c.toNat = 0x0B || c.toNat = 0x0C || c.toNat = 0x0D ||
  c.toNat = 0x20 || c.toNat = 0xA0 || c.toNat = 0x1680 ||
  (0x2000 ≤ c.toNat && c.toNat ≤ 0x200A) ||
  c.toNat = 0x2028 || c.toNat = 0x2029 || c.toNat = 0x202F || c.toNat = 0x205F ||
  c.toNat = 0x3000 || c.toNat = 0xFEFF

/-- The method `String.prototype.trim`. -/
def trim (s : JSString) : JSString :=
  ((s.dropWhile isTrimmable).reverse.dropWhile isTrimmable).reverse

/-- The method `String.prototype.startsWith`. -/
def startsWith (s p : JSString) : Bool := p.isPrefixOf s

/-- The worker of `split`: `cur` is the piece being read, reversed. -/
def splitGo (sep : Char) : JSString → JSString → List JSString
  | [], cur => [cur.reverse]
  | c :: cs, cur => if c = sep then cur.reverse :: splitGo sep cs [] else splitGo sep cs (c :: cur)

/-- The method `String.prototype.split` with a one-character separator. -/
def split (s : JSString) (sep : Char) : List JSString := splitGo sep s []

/-- The method `Array.prototype.join`. -/
def join (sep : JSString) : List JSString → JSString
  | [] => []
  | [a] => a
  | a :: b :: rest => a ++ sep ++ join sep (b :: rest)

/-- The call `Array.prototype.slice(-n)`: the elements from index `max (length - n) 0` on. -/
def sliceLast {α : Type} (n : Nat) (xs : List α) : List α := xs.drop (xs.length - n)

/-- The call `String.prototype.replace(pattern, '')` with a string pattern: the first occurrence
of `pat` is removed, and nothing changes when there is none. -/
def removeFirst (pat : JSString) : JSString → JSString
  | [] => []
  | c :: cs => if pat.isPrefixOf (c :: cs) then (c :: cs).drop pat.length else c :: removeFirst pat cs

/-- The decimal rendering of an integer inside a template literal. -/
def numStr (n : Int) : JSString := (toString n).toList

/-! ## Outbound chunking: `message.match(/.{1,100}/g)` -/

/-- The matches of the global regular expression `.{1,maxLength}` in `s`, left to right.
At a line terminator no match starts, and the search moves one character on; elsewhere the
match is the longest run of at most `maxLength` characters free of line terminators, and
the search resumes right after it. `fuel` bounds the number of search positions. -/
def matchDotRuns (maxLength : Nat) : Nat → JSString → List JSString
  | 0, _ => []
  | _ + 1, [] => []
  | fuel + 1, c :: cs =>
    if isLineTerminator c then matchDotRuns maxLength fuel cs
    else
      let run := ((c :: cs).takeWhile (fun d => !isLineTerminator d)).take maxLength
      run :: matchDotRuns maxLength fuel ((c :: cs).drop run.length)

/-- The value of `message.match(new RegExp('.{1,100}', 'g'))`: `none` stands for `null`,
which is what `match` returns when there is no match at all. -/
def matchParts (maxLength : Nat) (message : JSString) : Option (List JSString) :=
  match matchDotRuns maxLength message.length message with
  | [] => none
  | parts => some parts

/-! ## Data model -/

/-- A point with real coordinates, such as `bot.entity.position`. -/
structure Vec3 where
  x : ℚ
  y : ℚ
  z : ℚ
deriving DecidableEq

/-- One element of `conversationHistory`, also one element of `messages` in a request:
`{ role, content }`. A `content` of `none` is `undefined`. -/
structure Turn where
  role : JSString
  content : Option JSString
deriving DecidableEq

/-- The object stored in `homeLocation` and `baseLocation`. -/
structure Location where
  x : Int
  y : Int
  z : Int
  dimension : JSString
deriving DecidableEq

/-- The goal `new goals.GoalNear(x, y, z, range)` of the pathfinder. -/
structure GoalNear where
  x : ℚ
  y : ℚ
  z : ℚ
  range : Nat
deriving DecidableEq

/-- The `matching` option of `bot.findBlocks`: a list of block names, or the predicate of
`findNearbyTrees` (the block name includes `log` or `wood`). -/
inductive Matching where
  | names (blocks : List JSString)
  | logOrWood
deriving DecidableEq

/-- The options object of `bot.findBlocks`. -/
structure FindBlocksOptions where
  matching : Matching
  maxDistance : Nat
  count : Nat
deriving DecidableEq

/-- The body and headers posted to a chat-completions endpoint (ChatGPT, DeepSeek). -/
structure ChatRequest where
  url : JSString
  model : JSString
  messages : List Turn
  max_tokens : Nat
  temperature : ℚ
  authorization : JSString
deriving DecidableEq

/-- The request posted to Gemini: the URL with the key, and `contents[0].parts[0].text`. -/
structure GeminiRequest where
  url : JSString
  text : JSString
deriving DecidableEq

/-- A call of `axios.post`. -/
inductive Request where
  | chatCompletion (request : ChatRequest)
  | generateContent (request : GeminiRequest)
deriving DecidableEq

/-- The calls a handler makes on its collaborators. Console output is not recorded. -/
inductive Effect where
  /-- The call `bot.chat(message)`. -/
  | chat (message : JSString)
  /-- The call `bot.whisper(username, message)`. -/
  | whisper (username message : JSString)
  /-- The call `setTimeout(() => call, ms)`. -/
  | setTimeout (ms : Nat) (call : Effect)
  /-- The call `axios.post(...)`. -/
  | post (request : Request)
  /-- The call `bot.pathfinder.setGoal(goal)`; `none` is `null`. -/
  | setGoal (goal : Option GoalNear)
  /-- The call `bot.lookAt(point)`. -/
  | lookAt (point : Vec3)
  /-- The call `bot.findBlocks(options)`. -/
  | findBlocks (options : FindBlocksOptions)
  /-- The call `bot.nearestEntity(filter)` of `findNearbyVillage`. -/
  | nearestEntity
  /-- The timer of `startFollowLoop`: `setInterval(tick, ms)`. -/
  | setInterval (ms : Nat)
  /-- The call `clearInterval(followInterval)`. -/
  | clearInterval
  /-- The call `bot.setControlState(control, state)`. -/
  | setControlState (control : JSString) (state : Bool)
  /-- The call `mineflayer.createBot(...)` of `connectBot`. -/
  | createBot
deriving DecidableEq

/-- What `response.data` of a chat-completions answer holds along the access path
`choices[0].message.content`. `none` is a missing (`undefined` or `null`) field. -/
structure ChatMessage where
  content : Option JSString
deriving DecidableEq

/-- One element of `choices`. -/
structure ChatChoice where
  message : Option ChatMessage
deriving DecidableEq

/-- The `data` of a chat-completions answer. -/
structure ChatData where
  choices : Option (List ChatChoice)
deriving DecidableEq

/-- One element of `parts` in a Gemini answer. -/
structure GeminiPart where
  text : Option JSString
deriving DecidableEq

/-- The `content` of a Gemini candidate. -/
structure GeminiContent where
  parts : Option (List GeminiPart)
deriving DecidableEq

/-- One element of `candidates`. -/
structure GeminiCandidate where
  content : Option GeminiContent
deriving DecidableEq

/-- The `data` of a Gemini answer, along the path `candidates[0].content.parts[0].text`. -/
structure GeminiData where
  candidates : Option (List GeminiCandidate)
deriving DecidableEq

/-- An entry of `bot.players`. -/
structure Player where
  entity : Option Vec3
deriving DecidableEq

/-- The file `config.json`. -/
structure Config where
  username : JSString
  password : JSString
  defaultAIModel : Option JSString
  chatgptKey : JSString
  geminiKey : JSString
  deepseekKey : JSString

/-- Everything a handler reads from outside the session: the configuration, the state of
the game client, and the answers of the backends (`none`: `axios.post` throws). -/
structure World where
  config : Config
  /-- The value of `bot.username`. -/
  username : JSString
  /-- The table `bot.players`, by user name. -/
  players : List (JSString × Player)
  /-- The value of `bot.entity.position`. -/
  position : Vec3
  /-- The value of `bot.game.dimension`. -/
  dimension : JSString
  /-- Whether `bot.pathfinder` is defined. -/
  pathfinder : Bool
  /-- The value of `new Date().toLocaleString()`. -/
  now : JSString
  /-- The two values `Math.random()` returns in `exploreRandomly`. -/
  random : ℚ × ℚ
  /-- The position of the entity `bot.nearestEntity` returns in `findNearbyVillage`. -/
  nearestVillager : Option Vec3
  /-- The positions `bot.findBlocks` returns. -/
  findBlocks : FindBlocksOptions → List (Int × Int × Int)
  chatgpt : ChatRequest → Option ChatData
  gemini : GeminiRequest → Option GeminiData
  deepseek : ChatRequest → Option ChatData

/-- The fields of `MinecraftBot` (the session), except the connection `bot`. -/
structure MinecraftBot where
  isRegistered : Bool
  currentAIModel : JSString
  conversationHistory : List Turn
  followTarget : Option JSString
  homeLocation : Option Location
  baseLocation : Option Location
  /-- The `Set` of team members, in insertion order. -/
  teamMembers : List JSString
  isFollowing : Bool
  searchingFor : Option JSString
deriving DecidableEq

/-- The session after `constructor()` and the initialisation of `setupBotCommands`. -/
def MinecraftBot.new (config : Config) : MinecraftBot where
  isRegistered := false
  currentAIModel :=
    match config.defaultAIModel with
    | none => "chatgpt".toList
    | some [] => "chatgpt".toList
    | some model => model
  conversationHistory := []
  followTarget := none
  homeLocation := none
  baseLocation := none
  teamMembers := []
  isFollowing := false
  searchingFor := none

/-! ## Handlers -/

/-- An error thrown by the runtime. -/
inductive JSError where
  | typeError (what : String)
  /-- The rejection of `axios.post`: no connection, or an error status. -/
  | requestFailed
deriving DecidableEq

/-- The outcome of running a handler. -/
structure Outcome (α : Type) where
  /-- The returned value, or the error thrown. -/
  result : Except JSError α
  /-- The session after the run. -/
  bot : MinecraftBot
  /-- The calls made, in order. -/
  calls : List Effect

/-- A handler: a computation over the session. -/
def Handler (α : Type) : Type := MinecraftBot → Outcome α

/-- Return a value. -/
def Handler.pure {α : Type} (a : α) : Handler α := fun bot => ⟨.ok a, bot, []⟩

/-- Sequence two computations; an error of the first skips the second. -/
def Handler.bind {α β : Type} (m : Handler α) (f : α → Handler β) : Handler β := fun bot =>
  match m bot with
  | ⟨.ok a, bot1, calls1⟩ =>
    match f a bot1 with
    | ⟨r, bot2, calls2⟩ => ⟨r, bot2, calls1 ++ calls2⟩
  | ⟨.error e, bot1, calls1⟩ => ⟨.error e, bot1, calls1⟩

instance : Monad Handler where
  pure := Handler.pure
  bind := Handler.bind

/-- Make a call on a collaborator. -/
def emit (e : Effect) : Handler Unit := fun bot => ⟨.ok (), bot, [e]⟩

/-- Make several calls in order. -/
def emitAll (es : List Effect) : Handler Unit := fun bot => ⟨.ok (), bot, es⟩

/-- Read the session. -/
def getBot : Handler MinecraftBot := fun bot => ⟨.ok bot, bot, []⟩

/-- Assign fields of the session. -/
def modifyBot (f : MinecraftBot → MinecraftBot) : Handler Unit := fun bot => ⟨.ok (), f bot, []⟩

/-- The statement `throw`. -/
def throwJS {α : Type} (e : JSError) : Handler α := fun bot => ⟨.error e, bot, []⟩

/-- The statement `try { body } catch (error) { handler }`. -/
def tryCatch {α : Type} (body : Handler α) (handler : JSError → Handler α) : Handler α := fun bot =>
  match body bot with
  | ⟨.ok a, bot1, calls1⟩ => ⟨.ok a, bot1, calls1⟩
  | ⟨.error e, bot1, calls1⟩ =>
    match handler e bot1 with
    | ⟨r, bot2, calls2⟩ => ⟨r, bot2, calls1 ++ calls2⟩

/-! ## Conversation history -/

/-- The method `updateConversationHistory(role, content)`, on the history alone. -/
def pushTurn (history : List Turn) (turn : Turn) : List Turn :=
  let pushed := history ++ [turn]
  if pushed.length > 10 then sliceLast 10 pushed else pushed

/-- The method `updateConversationHistory(role, content)`. -/
def updateConversationHistory (role : JSString) (content : Option JSString) : Handler Unit :=
  modifyBot fun bot =>
    { bot with conversationHistory := pushTurn bot.conversationHistory ⟨role, content⟩ }

/-! ## Sending a response -/

/-- The call that delivers one piece of a response: a whisper, or a public chat line
prefixed with `@username `. -/
def deliver (username : JSString) (isWhisper : Bool) (part : JSString) : Effect :=
  if isWhisper then .whisper username part
  else .chat ("@".toList ++ username ++ " ".toList ++ part)

/-- The timers `parts.forEach` sets: part number `index` is delivered after
`index * 1000` milliseconds. -/
def scheduleParts (username : JSString) (isWhisper : Bool) (parts : List JSString) :
    List Effect :=
  parts.enum.map fun ip => .setTimeout (ip.1 * 1000) (deliver username isWhisper ip.2)

/-- The method `sendResponse(username, message, isWhisper)`. A `message` of `none` is
`undefined`, whose `length` cannot be read. -/
def sendResponse (username : JSString) (message : Option JSString) (isWhisper : Bool) :
    Handler Unit :=
  match message with
  | none => throwJS (.typeError "Cannot read properties of undefined (reading 'length')")
  | some message =>
    let maxLength := 100
    if message.length > maxLength then
      match matchParts maxLength message with
      | none => throwJS (.typeError "Cannot read properties of null (reading 'forEach')")
      | some parts => emitAll (scheduleParts username isWhisper parts)
    else
      emit (deliver username isWhisper message)

/-! ## AI gateway -/

/-- The template literal `systemPrompt` of `getAIResponse`. -/
def systemPrompt (config : Config) (username : JSString) : JSString :=
  "You are a helpful Minecraft bot named ".toList ++ config.username ++
  ". \n        You are playing on a Minecraft server and chatting with players. \n        Keep responses short (under 100 characters) and friendly. \n        You can help with Minecraft questions, chat casually, and be helpful to players.\n        Current player: ".toList
  ++ username

/-- The call `axios.post`, awaited: the request is recorded, and the answer of the backend
is returned, or the rejection is thrown. -/
def awaitPost {δ : Type} (request : Request) (answer : Option δ) : Handler δ := do
  emit (.post request)
  match answer with
  | none => throwJS .requestFailed
  | some data => pure data

/-- The expression `response.data.choices[0].message.content`. Reading a property of a
missing value throws; the last property read may itself be missing, which does not. -/
def chatContent (data : ChatData) : Handler (Option JSString) :=
  match data.choices with
  | none => throwJS (.typeError "Cannot read properties of undefined (reading '0')")
  | some choices =>
    match choices.head? with
    | none => throwJS (.typeError "Cannot read properties of undefined (reading 'message')")
    | some choice =>
      match choice.message with
      | none => throwJS (.typeError "Cannot read properties of undefined (reading 'content')")
      | some message => pure message.content

/-- The expression `response.data.candidates[0].content.parts[0].text`. -/
def geminiText (data : GeminiData) : Handler (Option JSString) :=
  match data.candidates with
  | none => throwJS (.typeError "Cannot read properties of undefined (reading '0')")
  | some candidates =>
    match candidates.head? with
    | none => throwJS (.typeError "Cannot read properties of undefined (reading 'content')")
    | some candidate =>
      match candidate.content with
      | none => throwJS (.typeError "Cannot read properties of undefined (reading 'parts')")
      | some content =>
        match content.parts with
        | none => throwJS (.typeError "Cannot read properties of undefined (reading '0')")
        | some parts =>
          match parts.head? with
          | none => throwJS (.typeError "Cannot read properties of undefined (reading 'text')")
          | some part => pure part.text

/-- The request `getChatGPTResponse` posts. -/
def chatGPTRequest (config : Config) (history : List Turn) (message systemPrompt : JSString) :
    ChatRequest where
  url := "https://api.openai.com/v1/chat/completions".toList
  model := "gpt-3.5-turbo".toList
  messages :=
    [⟨"system".toList, some systemPrompt⟩] ++ sliceLast 5 history ++
    [⟨"user".toList, some message⟩]
  max_tokens := 100
  temperature := 7 / 10
  authorization := "Bearer ".toList ++ config.chatgptKey

/-- The request `getGeminiResponse` posts. -/
def geminiRequest (config : Config) (message systemPrompt : JSString) : GeminiRequest where
  url :=
    "https://generativelanguage.googleapis.com/v1beta/models/gemini-pro:generateContent?key=".toList
    ++ config.geminiKey
  text := systemPrompt ++ "\n\nUser: ".toList ++ message

/-- The request `getDeepseekResponse` posts. -/
def deepseekRequest (config : Config) (history : List Turn) (message systemPrompt : JSString) :
    ChatRequest where
  url := "https://api.deepseek.com/v1/chat/completions".toList
  model := "deepseek-chat".toList
  messages :=
    [⟨"system".toList, some systemPrompt⟩] ++ sliceLast 5 history ++
    [⟨"user".toList, some message⟩]
  max_tokens := 100
  temperature := 7 / 10
  authorization := "Bearer ".toList ++ config.deepseekKey

/-- The method `getChatGPTResponse(message, systemPrompt)`. -/
def getChatGPTResponse (w : World) (message systemPrompt : JSString) :
    Handler (Option JSString) :=
  tryCatch (do
    let bot ← getBot
    let request := chatGPTRequest w.config bot.conversationHistory message systemPrompt
    let data ← awaitPost (.chatCompletion request) (w.chatgpt request)
    let aiResponse ← chatContent data
    updateConversationHistory "user".toList (some message)
    updateConversationHistory "assistant".toList aiResponse
    return aiResponse)
  fun _ => pure (some "Sorry, ChatGPT is not responding right now!".toList)

/-- The method `getGeminiResponse(message, systemPrompt)`. -/
def getGeminiResponse (w : World) (message systemPrompt : JSString) :
    Handler (Option JSString) :=
  tryCatch (do
    let request := geminiRequest w.config message systemPrompt
    let data ← awaitPost (.generateContent request) (w.gemini request)
    let aiResponse ← geminiText data
    updateConversationHistory "user".toList (some message)
    updateConversationHistory "assistant".toList aiResponse
    return aiResponse)
  fun _ => pure (some "Sorry, Gemini is not responding right now!".toList)

/-- The method `getDeepseekResponse(message, systemPrompt)`. -/
def getDeepseekResponse (w : World) (message systemPrompt : JSString) :
    Handler (Option JSString) :=
  tryCatch (do
    let bot ← getBot
    let request := deepseekRequest w.config bot.conversationHistory message systemPrompt
    let data ← awaitPost (.chatCompletion request) (w.deepseek request)
    let aiResponse ← chatContent data
    updateConversationHistory "user".toList (some message)
    updateConversationHistory "assistant".toList aiResponse
    return aiResponse)
  fun _ => pure (some "Sorry, DeepSeek is not responding right now!".toList)

/-- The method `getAIResponse(message, username)`. -/
def getAIResponse (w : World) (message username : JSString) : Handler (Option JSString) := do
  let systemPrompt := systemPrompt w.config username
  let bot ← getBot
  if bot.currentAIModel = "chatgpt".toList then
    getChatGPTResponse w message systemPrompt
  else if bot.currentAIModel = "gemini".toList then
    getGeminiResponse w message systemPrompt
  else if bot.currentAIModel = "deepseek".toList then
    getDeepseekResponse w message systemPrompt
  else
    getChatGPTResponse w message systemPrompt

/-- The method `processAIResponse(username, message, isWhisper)`. -/
def processAIResponse (w : World) (username message : JSString) (isWhisper : Bool) :
    Handler Unit :=
  tryCatch (do
    if startsWith (toLowerCase message) "switch to ".toList then
      let model := trim (removeFirst "switch to ".toList (toLowerCase message))
      if model ∈ ["chatgpt".toList, "gemini".toList, "deepseek".toList] then
        modifyBot fun bot => { bot with currentAIModel := model }
        let response := "Switched to ".toList ++ toUpperCase model ++ " model!".toList
        sendResponse username (some response) isWhisper
        return
    let aiResponse ← getAIResponse w message username
    sendResponse username aiResponse isWhisper)
  fun _ =>
    sendResponse username (some "Sorry, I'm having trouble thinking right now!".toList) isWhisper

/-- The method `String.prototype.includes`. -/
def includes (s p : JSString) : Bool := s.tails.any fun t => p.isPrefixOf t

/-- Whether `new RegExp(name)` reads the name literally: whether the name is made of ASCII
letters, digits and underscores, as the user names of Minecraft are. Any other character may
be a metacharacter of the pattern (`B.t` matches `But`), and the embedding of the
replacement below does not cover such a name. -/
def isLiteralName (name : JSString) : Bool :=
  name.all fun c => c.isAlphanum || c = '_'

/-- Whether a character of the text equals a character of a literal name under the `i` flag
of a regular expression: the two have the same ASCII upper case. Without the `u` flag no
character outside ASCII is folded onto an ASCII one. -/
def eqIgnoreCase (a b : Char) : Bool := a.toUpper = b.toUpper

/-- Whether the regular expression `new RegExp(name, 'i')` matches at the start of `s`,
for a `name` the expression reads literally (`isLiteralName`). -/
def matchesNameAt : JSString → JSString → Bool
  | [], _ => true
  | _ :: _, [] => false
  | n :: ns, c :: cs => eqIgnoreCase n c && matchesNameAt ns cs

/-- The call `message.replace(new RegExp(name, 'gi'), '')` for a non-empty literal `name`:
every match, found left to right, is removed. `fuel` bounds the search positions. -/
def removeNameGo (name : JSString) : Nat → JSString → JSString
  | 0, s => s
  | _ + 1, [] => []
  | fuel + 1, c :: cs =>
    if matchesNameAt name (c :: cs) then removeNameGo name fuel ((c :: cs).drop name.length)
    else c :: removeNameGo name fuel cs

/-- The call `message.replace(new RegExp(name, 'gi'), '')`, for a `name` the expression
reads literally (`isLiteralName`). An empty `name` matches the empty string everywhere, and
removing that changes nothing. -/
def removeName (name message : JSString) : JSString :=
  if name = [] then message else removeNameGo name message.length message

/-- The call `.replace(/^[@!]/, '')`. -/
def removeLeadingMark : JSString → JSString
  | [] => []
  | c :: cs => if c = '@' || c = '!' then cs else c :: cs

/-- The cleaning step of `handleChatMessage`: the expression assigned to `cleanMessage`. -/
def cleanMessage (name message : JSString) : JSString :=
  trim (removeLeadingMark (removeName name message))

/-- The method `handleChatMessage(username, message)`. -/
def handleChatMessage (w : World) (username message : JSString) : Handler Unit := do
  if includes (toLowerCase message) (toLowerCase w.config.username) ||
      startsWith message "!".toList || startsWith message "@".toList then
    let cleanMessage := cleanMessage w.config.username message
    if cleanMessage.length > 0 then
      processAIResponse w username cleanMessage false

/-- The method `handleWhisperMessage(username, message)`. -/
def handleWhisperMessage (w : World) (username message : JSString) : Handler Unit :=
  processAIResponse w username message true

/-- The method `handleAuthentication()`, after its delay of two seconds. -/
def handleAuthentication (w : World) : Handler Unit := do
  let bot ← getBot
  if bot.isRegistered then
    emit (.chat ("/login ".toList ++ w.config.password))
  else
    emit (.chat ("/register ".toList ++ w.config.password ++ " ".toList ++ w.config.password))
    modifyBot fun bot => { bot with isRegistered := true }

/-! ## Movement -/

/-- The method `navigateToLocation(location)`. -/
def navigateToLocation (w : World) (location : Vec3) : Handler Unit := do
  if w.pathfinder then
    emit (.setGoal (some ⟨location.x, location.y, location.z, 1⟩))
  else
    emit (.lookAt location)
    emit (.chat ("Heading to ".toList ++ numStr (Rat.floor location.x) ++ ", ".toList ++
      numStr (Rat.floor location.y) ++ ", ".toList ++ numStr (Rat.floor location.z) ++
      "...".toList))

/-- The method `exploreRandomly()`. -/
def exploreRandomly (w : World) : Handler Unit := do
  let randomX := w.position.x + (w.random.1 - 1 / 2) * 100
  let randomZ := w.position.z + (w.random.2 - 1 / 2) * 100
  let randomY := w.position.y
  emit (.chat "Exploring randomly...".toList)
  navigateToLocation w ⟨randomX, randomY, randomZ⟩

/-- The method `startFollowLoop()`: it sets the timer of the follow tick. -/
def startFollowLoop : Handler Unit := emit (.setInterval 1000)

/-- The properties every object literal inherits from `Object.prototype`. -/
def objectPrototypeProperties : List JSString :=
  [ "constructor".toList, "__proto__".toList, "hasOwnProperty".toList,
    "isPrototypeOf".toList, "propertyIsEnumerable".toList, "toLocaleString".toList,
    "toString".toList, "valueOf".toList, "__defineGetter__".toList,
    "__defineSetter__".toList, "__lookupGetter__".toList, "__lookupSetter__".toList ]

/-- The property read `bot.players[name]`. The player list is a plain object: the read
gives the entry of a player who is online, else a property inherited from
`Object.prototype`, which is truthy and has no `entity`, else `undefined` (`none`). -/
def playerNamed (w : World) (name : JSString) : Option Player :=
  match w.players.lookup name with
  | some player => some player
  | none => if name ∈ objectPrototypeProperties then some ⟨none⟩ else none

/-- The method `followPlayer(targetName, requester)`. -/
def followPlayer (w : World) (targetName : JSString) : Handler Unit := do
  match playerNamed w targetName with
  | none => emit (.chat ("Player ".toList ++ targetName ++ " not found!".toList))
  | some _ =>
    modifyBot fun bot => { bot with followTarget := some targetName, isFollowing := true }
    emit (.chat ("Now following ".toList ++ targetName ++ "!".toList))
    startFollowLoop

/-- The method `stopFollowing(requester)`. Without the pathfinder plugin `bot.pathfinder`
is `undefined`, and reading `setGoal` from it throws. -/
def stopFollowing (w : World) : Handler Unit := do
  modifyBot fun bot => { bot with isFollowing := false, followTarget := none }
  if w.pathfinder then emit (.setGoal none)
  else throwJS (.typeError "Cannot read properties of undefined (reading 'setGoal')")
  emit (.chat "Stopped following.".toList)

/-- One run of the callback that `startFollowLoop` hands to `setInterval`. The distance to
the target exceeds 3 when its square exceeds 9. -/
def followTick (w : World) : Handler Unit := do
  let bot ← getBot
  if !bot.isFollowing || bot.followTarget.getD [] = [] then
    emit .clearInterval
  else
    let followTarget := bot.followTarget.getD []
    match (playerNamed w followTarget).bind Player.entity with
    | none =>
      emit (.chat ("Lost sight of ".toList ++ followTarget ++ "!".toList))
      stopFollowing w
      emit .clearInterval
    | some position =>
      let dx := w.position.x - position.x
      let dy := w.position.y - position.y
      let dz := w.position.z - position.z
      if dx * dx + dy * dy + dz * dz > 9 then
        if w.pathfinder then
          emit (.setGoal (some ⟨position.x, position.y, position.z, 2⟩))
        else
          emit (.lookAt position)
          emit (.setControlState "forward".toList true)
          emit (.setTimeout 1000 (.setControlState "forward".toList false))

/-- The integer coordinates and the dimension that `setHome` and `setBase` store. -/
def currentLocation (w : World) : Location where
  x := Rat.floor w.position.x
  y := Rat.floor w.position.y
  z := Rat.floor w.position.z
  dimension := w.dimension

/-- The text `x, y, z` of a stored location, as the template literals render it. -/
def coordinates (l : Location) : JSString :=
  numStr l.x ++ ", ".toList ++ numStr l.y ++ ", ".toList ++ numStr l.z

/-- The method `setHome(requester)`. -/
def setHome (w : World) : Handler Unit := do
  modifyBot fun bot => { bot with homeLocation := some (currentLocation w) }
  emit (.chat ("Home set at coordinates: ".toList ++ coordinates (currentLocation w)))

/-- The method `goHome(requester)`. -/
def goHome (w : World) : Handler Unit := do
  let bot ← getBot
  match bot.homeLocation with
  | none => emit (.chat "No home location set! Use !sethome first.".toList)
  | some home =>
    emit (.chat ("Going home to ".toList ++ coordinates home))
    navigateToLocation w ⟨home.x, home.y, home.z⟩

/-- The method `setBase(requester)`. -/
def setBase (w : World) : Handler Unit := do
  modifyBot fun bot => { bot with baseLocation := some (currentLocation w) }
  emit (.chat ("Base set at coordinates: ".toList ++ coordinates (currentLocation w)))

/-! ## Team roster -/

/-- The call `teamMembers.add(name)` on the roster. -/
def setAdd (members : List JSString) (name : JSString) : List JSString :=
  if name ∈ members then members else members ++ [name]

/-- The method `addToTeam(playerName, requester)`. -/
def addToTeam (w : World) (playerName : JSString) : Handler Unit := do
  match playerNamed w playerName with
  | some _ =>
    modifyBot fun bot => { bot with teamMembers := setAdd bot.teamMembers playerName }
    let bot ← getBot
    emit (.chat (playerName ++ " added to team! Team size: ".toList ++
      numStr bot.teamMembers.length))
  | none => emit (.chat ("Player ".toList ++ playerName ++ " not found!".toList))

/-- The method `removeFromTeam(playerName, requester)`. -/
def removeFromTeam (playerName : JSString) : Handler Unit := do
  let bot ← getBot
  if playerName ∈ bot.teamMembers then
    modifyBot fun bot => { bot with teamMembers := bot.teamMembers.erase playerName }
    let bot ← getBot
    emit (.chat (playerName ++ " removed from team! Team size: ".toList ++
      numStr bot.teamMembers.length))
  else
    emit (.chat (playerName ++ " is not in the team!".toList))

/-- The method `listTeamMembers(requester)`. -/
def listTeamMembers : Handler Unit := do
  let bot ← getBot
  if bot.teamMembers.length = 0 then
    emit (.chat "No team members yet!".toList)
  else
    emit (.chat ("Team members: ".toList ++ join ", ".toList bot.teamMembers))

/-! ## Finding structures -/

/-- The text `x, y, z` of a block position. -/
def blockCoordinates (b : Int × Int × Int) : JSString :=
  numStr b.1 ++ ", ".toList ++ numStr b.2.1 ++ ", ".toList ++ numStr b.2.2

/-- A block position as a navigation target. -/
def blockPoint (b : Int × Int × Int) : Vec3 := ⟨b.1, b.2.1, b.2.2⟩

/-- The call `bot.findBlocks(options)`: the query is recorded and the answer returned. -/
def findBlocks (w : World) (options : FindBlocksOptions) : Handler (List (Int × Int × Int)) := do
  emit (.findBlocks options)
  pure (w.findBlocks options)

/-- The method `findNearbyVillage()`. -/
def findNearbyVillage (w : World) : Handler Unit := do
  emit .nearestEntity
  match w.nearestVillager with
  | some position =>
    emit (.chat ("Found villager at ".toList ++ numStr (Rat.floor position.x) ++ ", ".toList ++
      numStr (Rat.floor position.y) ++ ", ".toList ++ numStr (Rat.floor position.z) ++
      "!".toList))
    navigateToLocation w position
  | none =>
    emit (.chat "No village found nearby. Let me explore...".toList)
    exploreRandomly w

/-- The method `findNearbyMine()`. -/
def findNearbyMine (w : World) : Handler Unit := do
  let caveBlocks ← findBlocks w ⟨.names ["cave_air".toList, "air".toList], 50, 10⟩
  match caveBlocks with
  | cave :: _ =>
    emit (.chat ("Found cave entrance at ".toList ++ blockCoordinates cave ++ "!".toList))
    navigateToLocation w (blockPoint cave)
  | [] =>
    emit (.chat "No caves found nearby. Exploring...".toList)
    exploreRandomly w

/-- The method `findNearbyWater()`. -/
def findNearbyWater (w : World) : Handler Unit := do
  let waterBlocks ← findBlocks w ⟨.names ["water".toList], 100, 1⟩
  match waterBlocks with
  | water :: _ =>
    emit (.chat ("Found water at ".toList ++ blockCoordinates water ++ "!".toList))
    navigateToLocation w (blockPoint water)
  | [] => emit (.chat "No water found nearby.".toList)

/-- The method `findNearbyLava()`. -/
def findNearbyLava (w : World) : Handler Unit := do
  let lavaBlocks ← findBlocks w ⟨.names ["lava".toList], 100, 1⟩
  match lavaBlocks with
  | lava :: _ =>
    emit (.chat ("Found lava at ".toList ++ blockCoordinates lava ++ "! Be careful!".toList))
    navigateToLocation w (blockPoint lava)
  | [] => emit (.chat "No lava found nearby.".toList)

/-- The method `findNearbyTrees()`. -/
def findNearbyTrees (w : World) : Handler Unit := do
  let treeBlocks ← findBlocks w ⟨.logOrWood, 50, 1⟩
  match treeBlocks with
  | tree :: _ =>
    emit (.chat ("Found trees at ".toList ++ blockCoordinates tree ++ "!".toList))
    navigateToLocation w (blockPoint tree)
  | [] => emit (.chat "No trees found nearby.".toList)

/-- The method `findNearbyStone()`. -/
def findNearbyStone (w : World) : Handler Unit := do
  let stoneBlocks ← findBlocks w ⟨.names ["stone".toList, "cobblestone".toList], 30, 1⟩
  match stoneBlocks with
  | stone :: _ =>
    emit (.chat ("Found stone at ".toList ++ blockCoordinates stone ++ "!".toList))
    navigateToLocation w (blockPoint stone)
  | [] => emit (.chat "No stone found nearby.".toList)

/-- The method `findNearbyOre(oreType)`. -/
def findNearbyOre (w : World) (oreType : JSString) : Handler Unit := do
  let oreBlocks ← findBlocks w ⟨.names [oreType], 50, 1⟩
  match oreBlocks with
  | ore :: _ =>
    emit (.chat ("Found ".toList ++ oreType ++ " at ".toList ++ blockCoordinates ore ++
      "!".toList))
    navigateToLocation w (blockPoint ore)
  | [] => emit (.chat ("No ".toList ++ oreType ++ " found nearby.".toList))

/-- A value that a property of the object `structures` can hold: one of the bound search
methods the literal lists, or a property the object inherits from `Object.prototype`. -/
inductive SearchFunction where
  | findNearbyVillage
  | findNearbyMine
  | findNearbyWater
  | findNearbyLava
  | findNearbyTrees
  | findNearbyStone
  | findNearbyOre (oreType : JSString)
  | inherited (property : JSString)
deriving DecidableEq

/-- The own properties of the object literal `structures` of `findStructure`. -/
def structures : List (JSString × SearchFunction) :=
  [ ("village".toList, .findNearbyVillage),
    ("cave".toList, .findNearbyMine),
    ("mine".toList, .findNearbyMine),
    ("water".toList, .findNearbyWater),
    ("lava".toList, .findNearbyLava),
    ("tree".toList, .findNearbyTrees),
    ("stone".toList, .findNearbyStone),
    ("iron".toList, .findNearbyOre "iron_ore".toList),
    ("coal".toList, .findNearbyOre "coal_ore".toList),
    ("diamond".toList, .findNearbyOre "diamond_ore".toList) ]

/-- The property read `structures[key]`: an own property, else an inherited one, else
`undefined` (`none`). -/
def structuresGet (key : JSString) : Option SearchFunction :=
  match structures.lookup key with
  | some f => some f
  | none => if key ∈ objectPrototypeProperties then some (.inherited key) else none

/-- The call `searchFunction()`. An inherited property is called without a receiver:
`constructor` (the function `Object`), `toString` and `isPrototypeOf` return, `__proto__`
is not a function, and the other methods throw on the missing receiver. -/
def callSearchFunction (w : World) : SearchFunction → Handler Unit
  | .findNearbyVillage => findNearbyVillage w
  | .findNearbyMine => findNearbyMine w
  | .findNearbyWater => findNearbyWater w
  | .findNearbyLava => findNearbyLava w
  | .findNearbyTrees => findNearbyTrees w
  | .findNearbyStone => findNearbyStone w
  | .findNearbyOre oreType => findNearbyOre w oreType
  | .inherited property =>
    if property ∈ ["constructor".toList, "toString".toList, "isPrototypeOf".toList] then pure ()
    else if property = "__proto__".toList then
      throwJS (.typeError "searchFunction is not a function")
    else throwJS (.typeError "Cannot convert undefined or null to object")

/-- The method `findStructure(structure, requester)`; its parameter `structure` is
`structureName` here. -/
def findStructure (w : World) (structureName : JSString) : Handler Unit := do
  emit (.chat ("Searching for ".toList ++ structureName ++ "...".toList))
  modifyBot fun bot => { bot with searchingFor := some structureName }
  match structuresGet (toLowerCase structureName) with
  | some searchFunction => callSearchFunction w searchFunction
  | none =>
    emit (.chat ("Don't know how to find ".toList ++ structureName ++
      ". Available: village, cave, mine, water, lava, tree, stone, iron, coal, diamond".toList))

/-! ## The command listener of `setupBotCommands` -/

/-- The listener `setupBotCommands` registers for the `chat` event. -/
def onCommand (w : World) (username message : JSString) : Handler Unit :=
  if username = w.username then pure () else do
    let args := split (toLowerCase message) ' '
    let command := args.headD []
    if command = "!help".toList then
      emit (.chat "Available commands: !help, !ping, !time, !players, !follow <player>, !sethome, !base, !team <player>, !find <structure>, !stop, !home, !switch to [ai_model]".toList)
    if command = "!ping".toList then
      let bot ← getBot
      emit (.chat ("Pong! Using ".toList ++ toUpperCase bot.currentAIModel ++ " model".toList))
    if command = "!time".toList then
      emit (.chat ("Current time: ".toList ++ w.now))
    if command = "!players".toList then
      emit (.chat ("Online players: ".toList ++ join ", ".toList (w.players.map Prod.fst)))
    if command = "!follow".toList && args.length > 1 then
      followPlayer w (args.getD 1 [])
    if command = "!stop".toList then
      stopFollowing w
    if command = "!sethome".toList then
      setHome w
    if command = "!home".toList then
      goHome w
    if command = "!base".toList then
      setBase w
    if command = "!team".toList && args.length > 1 then
      addToTeam w (args.getD 1 [])
    if command = "!find".toList && args.length > 1 then
      findStructure w (join " ".toList (args.drop 1))
    if command = "!teamlist".toList then
      listTeamMembers
    if command = "!removeteam".toList && args.length > 1 then
      removeFromTeam (args.getD 1 [])

/-- The listener `setupEventHandlers` registers for the `chat` event. -/
def onChat (w : World) (username message : JSString) : Handler Unit :=
  if username = w.username then pure () else handleChatMessage w username message

/-- The listener `setupEventHandlers` registers for the `whisper` event. -/
def onWhisper (w : World) (username message : JSString) : Handler Unit :=
  handleWhisperMessage w username message

/-! ## Connection events -/

/-- The method `connectBot()`: a new connection is created, to which `setupEventHandlers`
attaches its listeners. No field of the session other than the connection is assigned. -/
def connectBot : Handler Unit := emit .createBot

/-- The listener `setupEventHandlers` registers for the `end` event: the bot reconnects after
five seconds. -/
def onEnd : Handler Unit := emit (.setTimeout 5000 .createBot)

/-- The listener `setupEventHandlers` registers for the `spawn` event, from the end of the
delay of `handleAuthentication` on. The delays are equal, so these runs follow one another in
the order of the `spawn` events. -/
def onSpawn (w : World) : Handler Unit := handleAuthentication w

/-- A run of one of the listeners or timer callbacks of the bot. The listeners of `error`
and `login` only write to the console and are left out. -/
inductive Listener where
  /-- The listener of `spawn`. -/
  | spawn
  /-- The listener of `end`. -/
  | disconnect
  /-- The listener of `chat` that `setupEventHandlers` registers. -/
  | chat (username message : JSString)
  /-- The listener of `chat` that `setupBotCommands` registers. -/
  | command (username message : JSString)
  /-- The listener of `whisper`. -/
  | whisper (username message : JSString)
  /-- The callback of the follow timer. -/
  | followTick
deriving DecidableEq

/-- Whether the run is one of the `spawn` listener. -/
def Listener.isSpawn : Listener → Bool
  | .spawn => true
  | _ => false

/-- The handler a listener runs. -/
def runListener (w : World) : Listener → Handler Unit
  | .spawn => onSpawn w
  | .disconnect => onEnd
  | .chat username message => onChat w username message
  | .command username message => onCommand w username message
  | .whisper username message => onWhisper w username message
  | .followTick => followTick w

/-- The session after the listeners of `events` have run one after the other, each in the
world it finds. A listener that throws leaves the session as it is at the throw. -/
def runListeners : List (World × Listener) → MinecraftBot → MinecraftBot
  | [], bot => bot
  | (w, l) :: rest, bot => runListeners rest (runListener w l bot).bot

/-! ## Statements about the code -/

/-- The chunking contract for a reply `m`: whoever the recipient and whatever the channel,
`sendResponse` succeeds and schedules exactly the fragments `parts`, in order, where `parts`
has `ceil (length m / 100)` elements of at most 100 characters each that concatenate
to `m`. -/
def ChunkingContract (m : JSString) : Prop :=
  ∀ (username : JSString) (isWhisper : Bool) (bot : MinecraftBot),
    ∃ parts : List JSString,
      (sendResponse username (some m) isWhisper bot).calls
        = scheduleParts username isWhisper parts ∧
      (sendResponse username (some m) isWhisper bot).result = .ok () ∧
      parts.length = (m.length + 99) / 100 ∧
      (∀ p ∈ parts, p.length ≤ 100) ∧
      parts.flatten = m

/-- A reply of two lines: 60 times `a`, a line feed, 60 times `b` (121 characters). -/
def twoLineReply : JSString := List.replicate 60 'a' ++ ['\n'] ++ List.replicate 60 'b'

/-- A configuration to evaluate the handlers with: the bot is named `Bot`. -/
def sampleConfig : Config where
  username := "Bot".toList
  password := "secret".toList
  defaultAIModel := none
  chatgptKey := "k1".toList
  geminiKey := "k2".toList
  deepseekKey := "k3".toList

/-- A world to evaluate the handlers with: the player `Alice` is connected, the bot stands
at `(10.5, 64, -3.5)`, the pathfinder is loaded, and no backend answers. -/
def sampleWorld : World where
  config := sampleConfig
  username := "Bot".toList
  players := [("Alice".toList, ⟨some ⟨1, 64, 1⟩⟩)]
  position := ⟨21 / 2, 64, -7 / 2⟩
  dimension := "overworld".toList
  pathfinder := true
  now := "1/1/2024, 12:00:00 PM".toList
  random := (1 / 4, 3 / 4)
  nearestVillager := none
  findBlocks := fun _ => []
  chatgpt := fun _ => none
  gemini := fun _ => none
  deepseek := fun _ => none

/-- The session right after start-up, for `sampleConfig`. -/
def sampleBot : MinecraftBot := MinecraftBot.new sampleConfig

/-- What a chat-completions adapter (ChatGPT, DeepSeek) reads from the outcome of its
request: `none` when the request is rejected or a value on the access path is missing before
`content` is read (the adapter then throws into its `catch`), and `some c` when the path is
walked to the end, `c` being the `content` found there, if any. -/
def chatFetch : Option ChatData → Option (Option JSString)
  | some ⟨some (⟨some message⟩ :: _)⟩ => some message.content
  | _ => none

/-- What the Gemini adapter reads from the outcome of its request, in the way of
`chatFetch`, along `candidates[0].content.parts[0].text`. -/
def geminiFetch : Option GeminiData → Option (Option JSString)
  | some ⟨some (⟨some ⟨some (part :: _)⟩⟩ :: _)⟩ => some part.text
  | _ => none

/-- A stored conversation of two turns. -/
def storedHistory : List Turn :=
  [⟨"user".toList, some "my name is Steve".toList⟩,
   ⟨"assistant".toList, some "Hi Steve!".toList⟩]

/-- A chat-completions answer whose first choice has a message without `content`:
the data `{ choices: [ { message: { role: 'assistant' } } ] }`. -/
def answerWithoutContent : ChatData := ⟨some [⟨some ⟨none⟩⟩]⟩

/-- The targets of the navigation intents among the calls, in order: the point of every
pathfinder goal set, and the point of every `lookAt`, the fallback without pathfinder. -/
def navigationTargets : List Effect → List Vec3
  | [] => []
  | .setGoal (some goal) :: rest => ⟨goal.x, goal.y, goal.z⟩ :: navigationTargets rest
  | .lookAt point :: rest => point :: navigationTargets rest
  | _ :: rest => navigationTargets rest

/-- Whether the regular expression of the bot's name matches somewhere in the message:
whether the message contains the name, letter case ignored. -/
def occursName (name message : JSString) : Bool := message.tails.any (matchesNameAt name)

/-- Whether the message starts with `!` or with `@`. -/
def startsWithMark (message : JSString) : Bool :=
  startsWith message "!".toList || startsWith message "@".toList

/-- The ten structure names `!find` supports. -/
def supportedNames : List JSString :=
  [ "village".toList, "cave".toList, "mine".toList, "water".toList, "lava".toList,
    "tree".toList, "stone".toList, "iron".toList, "coal".toList, "diamond".toList ]

/-- The message content a call sends, if the call is a send: the text of a whisper, the
text of a chat line without the prefix `@speaker ` when it has one, and the content of the
send a timer is set for. -/
def sendContent (speaker : JSString) : Effect → Option JSString
  | .chat message =>
    if ("@".toList ++ speaker ++ " ".toList).isPrefixOf message then
      some (message.drop ("@".toList ++ speaker ++ " ".toList).length)
    else some message
  | .whisper _ message => some message
  | .setTimeout _ call => sendContent speaker call
  | _ => none

/-- No send among the calls carries more than 100 characters of message content. -/
def SplitBeforeSending (speaker : JSString) (calls : List Effect) : Prop :=
  ∀ call ∈ calls, ∀ content, sendContent speaker call = some content → content.length ≤ 100

/-- Every call the handler makes, from whatever session, satisfies `P`. -/
structure CallsAll {α : Type} (P : Effect → Prop) (m : Handler α) : Prop where
  all : ∀ bot, ∀ e ∈ (m bot).calls, P e

/-- The handler leaves the flag `isRegistered` as it finds it, from whatever session. -/
structure KeepsFlag {α : Type} (m : Handler α) : Prop where
  keeps : ∀ bot, (m bot).bot.isRegistered = bot.isRegistered

/-- Whether the call is a public chat message: a call of `bot.chat`. -/
def isPublicChat : Effect → Bool
  | .chat _ => true
  | _ => false

/-- The number of public chat messages among the calls. -/
def chatCount (calls : List Effect) : Nat := calls.countP isPublicChat

/-- The structured commands other than `!follow` and `!find`. -/
def singleReplyCommands : List JSString :=
  [ "!help".toList, "!ping".toList, "!time".toList, "!players".toList, "!stop".toList,
    "!sethome".toList, "!home".toList, "!base".toList, "!team".toList, "!teamlist".toList,
    "!removeteam".toList ]

/-- The calls the `spawn` listeners make during the runs of `events`, in order: the
authentication commands sent. -/
def authenticationCalls : List (World × Listener) → MinecraftBot → List Effect
  | [], _ => []
  | (w, l) :: rest, bot =>
    (if l.isSpawn then (runListener w l bot).calls else []) ++
      authenticationCalls rest (runListener w l bot).bot

/-- The command `/login <password>`. -/
def loginCommand (password : JSString) : Effect := .chat ("/login ".toList ++ password)

/-- The command `/register <password> <password>`. -/
def registerCommand (password : JSString) : Effect :=
  .chat ("/register ".toList ++ password ++ " ".toList ++ password)

/-- The configured password at each `spawn` among the events, in order. -/
def spawnPasswords (events : List (World × Listener)) : List JSString :=
  (events.filter fun e => e.2.isSpawn).map fun e => e.1.config.password

/-- The authentication commands the policy asks for, `registered` telling whether a
registration was sent before the events: if none was, the first `spawn` sends `/register`
and every later one `/login`; if one was, every `spawn` sends `/login`. -/
def expectedAuthentication (registered : Bool) (events : List (World × Listener)) :
    List Effect :=
  match registered, spawnPasswords events with
  | true, passwords => passwords.map loginCommand
  | false, [] => []
  | false, first :: later => registerCommand first :: later.map loginCommand

/-- A process lifetime with three connections: the bot spawns, is spoken to, loses the
connection, spawns again after the reconnection, runs a command, and spawns a third time. -/
def sampleLifetime : List (World × Listener) :=
  [ (sampleWorld, .spawn),
    (sampleWorld, .chat "Steve".toList "Bot hello".toList),
    (sampleWorld, .disconnect),
    (sampleWorld, .spawn),
    (sampleWorld, .command "Steve".toList "!ping".toList),
    (sampleWorld, .disconnect),
    (sampleWorld, .spawn) ]

/-! ## Theorems -/

set_option maxRecDepth 100000

/-! ### Outbound chunking -/

theorem drop_min_length {α : Type} (n : Nat) (l : List α) :
    l.drop (min n l.length) = l.drop n := by
  rcases Nat.le_total n l.length with h | h
  · rw [Nat.min_eq_left h]
  · rw [Nat.min_eq_right h, List.drop_of_length_le h, List.drop_of_length_le (le_refl _)]

/-- The search of `matchDotRuns` never runs out of fuel when the fuel is at least the length
of the text: more fuel changes nothing. -/
theorem matchDotRuns_fuel (n : Nat) (hn : 0 < n) :
    ∀ (fuel1 fuel2 : Nat) (s : JSString), s.length ≤ fuel1 → s.length ≤ fuel2 →
      matchDotRuns n fuel1 s = matchDotRuns n fuel2 s := by
  intro fuel1
  induction fuel1 with
  | zero =>
    intro fuel2 s h1 _
    have hs : s = [] := List.length_eq_zero.mp (Nat.le_zero.mp h1)
    subst hs
    cases fuel2 <;> rfl
  | succ f1 ih =>
    intro fuel2 s h1 h2
    cases s with
    | nil => cases fuel2 <;> rfl
    | cons c cs =>
      cases fuel2 with
      | zero => simp at h2
      | succ f2 =>
        simp only [List.length_cons, Nat.add_le_add_iff_right] at h1 h2
        rw [matchDotRuns, matchDotRuns]
        by_cases hc : isLineTerminator c = true
        · simp only [hc, if_true]
          exact ih f2 cs h1 h2
        · simp only [hc, if_false]
          have hc' : (!isLineTerminator c) = true := by simpa using hc
          obtain ⟨k, hk⟩ : ∃ k,
              (((c :: cs).takeWhile (fun d => !isLineTerminator d)).take n).length
                = k + 1 := by
            obtain ⟨m, rfl⟩ : ∃ m, n = m + 1 := ⟨n - 1, by omega⟩
            rw [List.takeWhile_cons, if_pos hc', List.take_succ_cons]
            exact ⟨_, rfl⟩
          rw [hk, List.drop_succ_cons,
            ih f2 (cs.drop k) (by rw [List.length_drop]; omega)
              (by rw [List.length_drop]; omega)]
          simp

/-- On text free of line terminators the matches of `.{1,n}` are the consecutive blocks of
`n` characters: they concatenate to the text, none is longer than `n`, and there are
`ceil (length / n)` of them. -/
theorem matchDotRuns_of_no_terminator (n : Nat) (hn : 0 < n) :
    ∀ (fuel : Nat) (s : JSString), (∀ c ∈ s, isLineTerminator c = false) → s.length ≤ fuel →
      (matchDotRuns n fuel s).flatten = s ∧
      (∀ p ∈ matchDotRuns n fuel s, p.length ≤ n) ∧
      (matchDotRuns n fuel s).length = (s.length + n - 1) / n := by
  intro fuel
  induction fuel with
  | zero =>
    intro s _ hlen
    have hs : s = [] := List.length_eq_zero.mp (Nat.le_zero.mp hlen)
    subst hs
    refine ⟨rfl, by simp [matchDotRuns], ?_⟩
    simp only [matchDotRuns, List.length_nil, Nat.zero_add]
    exact (Nat.div_eq_of_lt (by omega)).symm
  | succ fuel ih =>
    intro s hs hlen
    cases s with
    | nil =>
      refine ⟨rfl, by simp [matchDotRuns], ?_⟩
      simp only [matchDotRuns, List.length_nil, Nat.zero_add]
      exact (Nat.div_eq_of_lt (by omega)).symm
    | cons c cs =>
      have hc : isLineTerminator c = false := hs c (List.mem_cons_self _ _)
      have htw : (c :: cs).takeWhile (fun d => !isLineTerminator d) = c :: cs := by
        rw [List.takeWhile_eq_self_iff]
        intro d hd
        simp [hs d hd]
      have hrun : matchDotRuns n (fuel + 1) (c :: cs)
          = (c :: cs).take n :: matchDotRuns n fuel ((c :: cs).drop n) := by
        rw [matchDotRuns]
        simp only [hc, htw, Bool.false_eq_true, if_false, List.length_take]
        rw [drop_min_length]
      have hrest : ∀ d ∈ (c :: cs).drop n, isLineTerminator d = false :=
        fun d hd => hs d (List.mem_of_mem_drop hd)
      have hlen2 : ((c :: cs).drop n).length ≤ fuel := by
        rw [List.length_drop]
        simp only [List.length_cons] at hlen ⊢
        omega
      obtain ⟨h1, h2, h3⟩ := ih ((c :: cs).drop n) hrest hlen2
      rw [hrun]
      refine ⟨?_, ?_, ?_⟩
      · rw [List.flatten_cons, h1, List.take_append_drop]
      · intro p hp
        rcases List.mem_cons.mp hp with rfl | hp
        · rw [List.length_take]; exact Nat.min_le_left _ _
        · exact h2 p hp
      · rw [List.length_cons, h3, List.length_drop]
        simp only [List.length_cons]
        rcases Nat.lt_or_ge n (cs.length + 1) with hlt | hge
        · have e : cs.length + 1 + n - 1 = (cs.length + 1 - n + n - 1) + n := by omega
          rw [e, Nat.add_div_right _ hn]
        · have e1 : (cs.length + 1 - n + n - 1) / n = 0 := by
            apply Nat.div_eq_of_lt; omega
          have e2 : (cs.length + 1 + n - 1) / n = 1 := by
            have : cs.length + 1 + n - 1 = cs.length + n := by omega
            rw [this]
            exact Nat.div_eq_of_lt_le (by omega) (by omega)
          rw [e1, e2]

theorem matchParts_of_ne_nil (n : Nat) (m : JSString) (h : matchDotRuns n m.length m ≠ []) :
    matchParts n m = some (matchDotRuns n m.length m) := by
  unfold matchParts
  split
  · next e => exact absurd e h
  · rfl

theorem sendResponse_of_parts (username m : JSString) (isWhisper : Bool)
    (parts : List JSString) (hlen : m.length > 100) (hparts : matchParts 100 m = some parts) :
    sendResponse username (some m) isWhisper
      = emitAll (scheduleParts username isWhisper parts) := by
  unfold sendResponse
  simp only [hlen, if_true, hparts]

/-- The chunking contract holds for every reply of more than 100 characters that has no line
terminator in it. -/
theorem sendResponse_chunks_text_without_line_break (m : JSString) (hlen : m.length > 100)
    (hm : ∀ c ∈ m, isLineTerminator c = false) : ChunkingContract m := by
  intro username isWhisper bot
  obtain ⟨h1, h2, h3⟩ :=
    matchDotRuns_of_no_terminator 100 (by decide) m.length m hm (le_refl _)
  have hne : matchDotRuns 100 m.length m ≠ [] := by
    intro h
    rw [h] at h3
    simp only [List.length_nil] at h3
    omega
  rw [sendResponse_of_parts username m isWhisper _ hlen (matchParts_of_ne_nil 100 m hne)]
  exact ⟨matchDotRuns 100 m.length m, rfl, rfl, h3, h2, h1⟩

theorem twoLineReply_parts :
    matchParts 100 twoLineReply = some [List.replicate 60 'a', List.replicate 60 'b'] := by
  decide

/-- C1, the code at the failing input. The reply `twoLineReply` has 121 characters, and
`sendResponse` delivers it as the two fragments `a...a` and `b...b` of 60 characters: the
line feed is in neither, the fragments concatenated are not the reply, and so the chunking
contract fails for this reply. -/
theorem sendResponse_loses_line_break :
    twoLineReply.length = 121 ∧
    (sendResponse "Steve".toList (some twoLineReply) true sampleBot).calls
      = [.setTimeout 0 (.whisper "Steve".toList (List.replicate 60 'a')),
         .setTimeout 1000 (.whisper "Steve".toList (List.replicate 60 'b'))] ∧
    List.replicate 60 'a' ++ List.replicate 60 'b' ≠ twoLineReply ∧
    ¬ ChunkingContract twoLineReply := by
  refine ⟨by decide, by decide, by decide, ?_⟩
  intro h
  obtain ⟨parts, h1, -, -, -, h4⟩ := h [] true sampleBot
  rw [sendResponse_of_parts [] twoLineReply true _ (by decide) twoLineReply_parts] at h1
  have hl : parts.length = 2 := by
    have := congrArg List.length h1
    simpa [scheduleParts, emitAll] using this.symm
  match parts, hl with
  | [p, q], _ =>
    simp only [emitAll, scheduleParts, List.enum, List.enumFrom, List.map, deliver,
      if_true] at h1
    simp only [List.cons.injEq, Effect.setTimeout.injEq, Effect.whisper.injEq, true_and,
      and_true] at h1
    obtain ⟨hp, hq⟩ := h1
    subst hp; subst hq
    revert h4
    decide

/-! ### Conversation history -/

theorem pushTurn_eq (h : List Turn) (t : Turn) :
    pushTurn h t = h.drop (h.length - 9) ++ [t] := by
  unfold pushTurn sliceLast
  simp only [List.length_append, List.length_singleton]
  split
  · rw [List.drop_append_of_le_length (by omega)]
    have e : h.length + 1 - 10 = h.length - 9 := by omega
    rw [e]
  · have : h.length - 9 = 0 := by omega
    simp [this]

/-- C2. Whatever the stored history `h` and the turn `t`, `updateConversationHistory` leaves
the history equal to the last `min 10 (length h + 1)` elements of `h` followed by `t`; the
history then has at most 10 turns and ends with `t`. The update neither fails nor calls a
collaborator. -/
theorem updateConversationHistory_keeps_last_ten (bot : MinecraftBot) (role : JSString)
    (content : Option JSString) :
    (updateConversationHistory role content bot).bot.conversationHistory
        = sliceLast (min 10 (bot.conversationHistory.length + 1))
            (bot.conversationHistory ++ [⟨role, content⟩]) ∧
      (updateConversationHistory role content bot).bot.conversationHistory.length ≤ 10 ∧
      (updateConversationHistory role content bot).bot.conversationHistory.getLast?
        = some ⟨role, content⟩ ∧
      (updateConversationHistory role content bot).result = .ok () ∧
      (updateConversationHistory role content bot).calls = [] := by
  have h1 : (updateConversationHistory role content bot).bot.conversationHistory
      = pushTurn bot.conversationHistory ⟨role, content⟩ := rfl
  rw [h1, pushTurn_eq]
  refine ⟨?_, ?_, ?_, rfl, rfl⟩
  · unfold sliceLast
    simp only [List.length_append, List.length_singleton]
    rw [List.drop_append_of_le_length (by omega)]
    have e : bot.conversationHistory.length + 1 - min 10 (bot.conversationHistory.length + 1)
        = bot.conversationHistory.length - 9 := by omega
    rw [e]
  · simp; omega
  · simp

/-! ### The adapters of the AI gateway -/

theorem getChatGPTResponse_eq (w : World) (message sp : JSString) (bot : MinecraftBot) :
    getChatGPTResponse w message sp bot =
      match chatFetch (w.chatgpt (chatGPTRequest w.config bot.conversationHistory message sp)) with
      | none =>
        ⟨.ok (some "Sorry, ChatGPT is not responding right now!".toList), bot,
          [.post (.chatCompletion
            (chatGPTRequest w.config bot.conversationHistory message sp))]⟩
      | some c =>
        ⟨.ok c,
          { bot with conversationHistory :=
              (pushTurn (pushTurn bot.conversationHistory ⟨"user".toList, some message⟩)
                ⟨"assistant".toList, c⟩) },
          [.post (.chatCompletion
            (chatGPTRequest w.config bot.conversationHistory message sp))]⟩ := by
  generalize h : w.chatgpt (chatGPTRequest w.config bot.conversationHistory message sp) = answer
  simp only [getChatGPTResponse, tryCatch, bind, Handler.bind, getBot, awaitPost, emit, h]
  rcases answer with _ | ⟨_ | ⟨_ | ⟨⟨_ | ⟨c⟩⟩, rest⟩⟩⟩ <;> rfl

theorem getDeepseekResponse_eq (w : World) (message sp : JSString) (bot : MinecraftBot) :
    getDeepseekResponse w message sp bot =
      match chatFetch
        (w.deepseek (deepseekRequest w.config bot.conversationHistory message sp)) with
      | none =>
        ⟨.ok (some "Sorry, DeepSeek is not responding right now!".toList), bot,
          [.post (.chatCompletion
            (deepseekRequest w.config bot.conversationHistory message sp))]⟩
      | some c =>
        ⟨.ok c,
          { bot with conversationHistory :=
              (pushTurn (pushTurn bot.conversationHistory ⟨"user".toList, some message⟩)
                ⟨"assistant".toList, c⟩) },
          [.post (.chatCompletion
            (deepseekRequest w.config bot.conversationHistory message sp))]⟩ := by
  generalize h : w.deepseek (deepseekRequest w.config bot.conversationHistory message sp)
    = answer
  simp only [getDeepseekResponse, tryCatch, bind, Handler.bind, getBot, awaitPost, emit, h]
  rcases answer with _ | ⟨_ | ⟨_ | ⟨⟨_ | ⟨c⟩⟩, rest⟩⟩⟩ <;> rfl

theorem getGeminiResponse_eq (w : World) (message sp : JSString) (bot : MinecraftBot) :
    getGeminiResponse w message sp bot =
      match geminiFetch (w.gemini (geminiRequest w.config message sp)) with
      | none =>
        ⟨.ok (some "Sorry, Gemini is not responding right now!".toList), bot,
          [.post (.generateContent (geminiRequest w.config message sp))]⟩
      | some c =>
        ⟨.ok c,
          { bot with conversationHistory :=
              (pushTurn (pushTurn bot.conversationHistory ⟨"user".toList, some message⟩)
                ⟨"assistant".toList, c⟩) },
          [.post (.generateContent (geminiRequest w.config message sp))]⟩ := by
  generalize h : w.gemini (geminiRequest w.config message sp) = answer
  simp only [getGeminiResponse, tryCatch, bind, Handler.bind, awaitPost, emit, h]
  rcases answer with _ | ⟨_ | ⟨_ | ⟨⟨_ | ⟨_ | ⟨_ | ⟨part, rest2⟩⟩⟩⟩, rest⟩⟩⟩ <;> rfl

theorem getAIResponse_chatgpt (w : World) (message username : JSString) (bot : MinecraftBot)
    (h : bot.currentAIModel = "chatgpt".toList) :
    getAIResponse w message username bot
      = getChatGPTResponse w message (systemPrompt w.config username) bot := by
  simp only [getAIResponse, bind, Handler.bind, getBot, h, if_true, List.append_nil]
  rfl

theorem getAIResponse_gemini (w : World) (message username : JSString) (bot : MinecraftBot)
    (h : bot.currentAIModel = "gemini".toList) :
    getAIResponse w message username bot
      = getGeminiResponse w message (systemPrompt w.config username) bot := by
  have h1 : ¬ ("gemini".toList = "chatgpt".toList) := by decide
  simp only [getAIResponse, bind, Handler.bind, getBot, h, h1, if_true, if_false,
    List.append_nil]
  rfl

theorem getAIResponse_deepseek (w : World) (message username : JSString) (bot : MinecraftBot)
    (h : bot.currentAIModel = "deepseek".toList) :
    getAIResponse w message username bot
      = getDeepseekResponse w message (systemPrompt w.config username) bot := by
  have h1 : ¬ ("deepseek".toList = "chatgpt".toList) := by decide
  have h2 : ¬ ("deepseek".toList = "gemini".toList) := by decide
  simp only [getAIResponse, bind, Handler.bind, getBot, h, h1, h2, if_true, if_false,
    List.append_nil]
  rfl

theorem getAIResponse_default (w : World) (message username : JSString) (bot : MinecraftBot)
    (h1 : bot.currentAIModel ≠ "chatgpt".toList) (h2 : bot.currentAIModel ≠ "gemini".toList)
    (h3 : bot.currentAIModel ≠ "deepseek".toList) :
    getAIResponse w message username bot
      = getChatGPTResponse w message (systemPrompt w.config username) bot := by
  simp only [getAIResponse, bind, Handler.bind, getBot, h1, h2, h3, if_false,
    List.append_nil]
  rfl

theorem pushTurn_pushTurn (h : List Turn) (a b : Turn) :
    pushTurn (pushTurn h a) b = sliceLast 10 (h ++ [a, b]) := by
  rw [pushTurn_eq, pushTurn_eq]
  unfold sliceLast
  simp only [List.length_append, List.length_drop, List.length_singleton, List.length_cons,
    List.length_nil]
  rw [@List.drop_append_of_le_length _ h [a, b] (h.length + (0 + 1 + 1) - 10) (by omega)]
  rw [List.drop_append_of_le_length (by simp only [List.length_drop]; omega)]
  rw [List.drop_drop]
  have e : h.length - 9 + (h.length - (h.length - 9) + (0 + 1) - 9)
      = h.length + (0 + 1 + 1) - 10 := by omega
  rw [e]
  simp

/-! ### C3: what the request carries -/

/-- With ChatGPT active, `getAIResponse` posts one request, whose messages are the system
instruction, the last `min 5 (length h)` stored turns in order, and the new user turn. -/
theorem getAIResponse_chatgpt_request (w : World) (message username : JSString)
    (bot : MinecraftBot) (h : bot.currentAIModel = "chatgpt".toList) :
    ∃ request : ChatRequest,
      (getAIResponse w message username bot).calls = [.post (.chatCompletion request)] ∧
      request.messages =
        [⟨"system".toList, some (systemPrompt w.config username)⟩] ++
        bot.conversationHistory.drop
          (bot.conversationHistory.length - min 5 bot.conversationHistory.length) ++
        [⟨"user".toList, some message⟩] := by
  refine ⟨chatGPTRequest w.config bot.conversationHistory message
    (systemPrompt w.config username), ?_, ?_⟩
  · rw [getAIResponse_chatgpt w message username bot h, getChatGPTResponse_eq]
    split <;> rfl
  · have e : bot.conversationHistory.length - min 5 bot.conversationHistory.length
        = bot.conversationHistory.length - 5 := by omega
    rw [e]
    rfl

/-- With DeepSeek active, `getAIResponse` posts one request, whose messages are the system
instruction, the last `min 5 (length h)` stored turns in order, and the new user turn. -/
theorem getAIResponse_deepseek_request (w : World) (message username : JSString)
    (bot : MinecraftBot) (h : bot.currentAIModel = "deepseek".toList) :
    ∃ request : ChatRequest,
      (getAIResponse w message username bot).calls = [.post (.chatCompletion request)] ∧
      request.messages =
        [⟨"system".toList, some (systemPrompt w.config username)⟩] ++
        bot.conversationHistory.drop
          (bot.conversationHistory.length - min 5 bot.conversationHistory.length) ++
        [⟨"user".toList, some message⟩] := by
  refine ⟨deepseekRequest w.config bot.conversationHistory message
    (systemPrompt w.config username), ?_, ?_⟩
  · rw [getAIResponse_deepseek w message username bot h, getDeepseekResponse_eq]
    split <;> rfl
  · have e : bot.conversationHistory.length - min 5 bot.conversationHistory.length
        = bot.conversationHistory.length - 5 := by omega
    rw [e]
    rfl

/-- With Gemini active, `getAIResponse` posts one request, whose text is the system
instruction followed by the new user text: the request is the same whatever the history. -/
theorem getAIResponse_gemini_request (w : World) (message username : JSString)
    (bot : MinecraftBot) (h : bot.currentAIModel = "gemini".toList) :
    (getAIResponse w message username bot).calls
      = [.post (.generateContent
          ⟨"https://generativelanguage.googleapis.com/v1beta/models/gemini-pro:generateContent?key=".toList
              ++ w.config.geminiKey,
            systemPrompt w.config username ++ "\n\nUser: ".toList ++ message⟩)] := by
  rw [getAIResponse_gemini w message username bot h, getGeminiResponse_eq]
  split <;> rfl

/-- C3, the code at the failing input. Gemini is active, two turns are stored, and the user
asks `what is my name?`. The request posted holds the system instruction and the user text
only; it is the request posted with an empty history, and neither stored turn is in it.
With ChatGPT active the same input posts the system instruction, the two stored turns and
the user turn. -/
theorem gemini_request_leaves_history_out :
    (getAIResponse sampleWorld "what is my name?".toList "Steve".toList
        { sampleBot with
          currentAIModel := "gemini".toList, conversationHistory := storedHistory }).calls
      = [.post (.generateContent
          ⟨"https://generativelanguage.googleapis.com/v1beta/models/gemini-pro:generateContent?key=k2".toList,
            systemPrompt sampleConfig "Steve".toList ++
              "\n\nUser: what is my name?".toList⟩)] ∧
    (getAIResponse sampleWorld "what is my name?".toList "Steve".toList
        { sampleBot with
          currentAIModel := "gemini".toList, conversationHistory := storedHistory }).calls
      = (getAIResponse sampleWorld "what is my name?".toList "Steve".toList
        { sampleBot with currentAIModel := "gemini".toList, conversationHistory := [] }).calls ∧
    (getAIResponse sampleWorld "what is my name?".toList "Steve".toList
        { sampleBot with
          currentAIModel := "chatgpt".toList, conversationHistory := storedHistory }).calls
      = [.post (.chatCompletion
          { url := "https://api.openai.com/v1/chat/completions".toList
            model := "gpt-3.5-turbo".toList
            messages :=
              [⟨"system".toList, some (systemPrompt sampleConfig "Steve".toList)⟩,
               ⟨"user".toList, some "my name is Steve".toList⟩,
               ⟨"assistant".toList, some "Hi Steve!".toList⟩,
               ⟨"user".toList, some "what is my name?".toList⟩]
            max_tokens := 100
            temperature := 7 / 10
            authorization := "Bearer k1".toList })] := by
  refine ⟨?_, ?_, ?_⟩
  · rw [getAIResponse_gemini_request _ _ _ _ rfl]; rfl
  · rw [getAIResponse_gemini_request _ _ _ _ rfl, getAIResponse_gemini_request _ _ _ _ rfl]
  · rw [getAIResponse_chatgpt _ _ _ _ rfl, getChatGPTResponse_eq]; rfl

/-! ### C4: failure and success of the backend call -/

/-- Whatever the backend answers, `getAIResponse` returns and does not throw. -/
theorem getAIResponse_never_throws (w : World) (message username : JSString)
    (bot : MinecraftBot) : ∃ r, (getAIResponse w message username bot).result = .ok r := by
  by_cases h1 : bot.currentAIModel = "chatgpt".toList
  · rw [getAIResponse_chatgpt w message username bot h1, getChatGPTResponse_eq]
    split <;> exact ⟨_, rfl⟩
  · by_cases h2 : bot.currentAIModel = "gemini".toList
    · rw [getAIResponse_gemini w message username bot h2, getGeminiResponse_eq]
      split <;> exact ⟨_, rfl⟩
    · by_cases h3 : bot.currentAIModel = "deepseek".toList
      · rw [getAIResponse_deepseek w message username bot h3, getDeepseekResponse_eq]
        split <;> exact ⟨_, rfl⟩
      · rw [getAIResponse_default w message username bot h1 h2 h3, getChatGPTResponse_eq]
        split <;> exact ⟨_, rfl⟩

/-- When the ChatGPT adapter throws (the request is rejected, or a value on the access path
before `content` is missing), `getAIResponse` returns the ChatGPT apology and the session is
left as it was. -/
theorem getAIResponse_chatgpt_apology (w : World) (message username : JSString)
    (bot : MinecraftBot) (h : bot.currentAIModel = "chatgpt".toList)
    (hfail : chatFetch (w.chatgpt (chatGPTRequest w.config bot.conversationHistory message
      (systemPrompt w.config username))) = none) :
    (getAIResponse w message username bot).result
      = .ok (some "Sorry, ChatGPT is not responding right now!".toList) ∧
    (getAIResponse w message username bot).bot = bot := by
  rw [getAIResponse_chatgpt w message username bot h, getChatGPTResponse_eq, hfail]
  exact ⟨rfl, rfl⟩

/-- When the Gemini adapter throws, `getAIResponse` returns the Gemini apology and the
session is left as it was. -/
theorem getAIResponse_gemini_apology (w : World) (message username : JSString)
    (bot : MinecraftBot) (h : bot.currentAIModel = "gemini".toList)
    (hfail : geminiFetch (w.gemini (geminiRequest w.config message
      (systemPrompt w.config username))) = none) :
    (getAIResponse w message username bot).result
      = .ok (some "Sorry, Gemini is not responding right now!".toList) ∧
    (getAIResponse w message username bot).bot = bot := by
  rw [getAIResponse_gemini w message username bot h, getGeminiResponse_eq, hfail]
  exact ⟨rfl, rfl⟩

/-- When the DeepSeek adapter throws, `getAIResponse` returns the DeepSeek apology and the
session is left as it was. -/
theorem getAIResponse_deepseek_apology (w : World) (message username : JSString)
    (bot : MinecraftBot) (h : bot.currentAIModel = "deepseek".toList)
    (hfail : chatFetch (w.deepseek (deepseekRequest w.config bot.conversationHistory message
      (systemPrompt w.config username))) = none) :
    (getAIResponse w message username bot).result
      = .ok (some "Sorry, DeepSeek is not responding right now!".toList) ∧
    (getAIResponse w message username bot).bot = bot := by
  rw [getAIResponse_deepseek w message username bot h, getDeepseekResponse_eq, hfail]
  exact ⟨rfl, rfl⟩

/-- When the ChatGPT adapter walks the access path to its end and finds `c` there,
`getAIResponse` returns `c` and the history becomes the last 10 of the old history followed
by the user turn and the assistant turn. -/
theorem getAIResponse_chatgpt_success (w : World) (message username : JSString)
    (bot : MinecraftBot) (c : Option JSString) (h : bot.currentAIModel = "chatgpt".toList)
    (hok : chatFetch (w.chatgpt (chatGPTRequest w.config bot.conversationHistory message
      (systemPrompt w.config username))) = some c) :
    (getAIResponse w message username bot).result = .ok c ∧
    (getAIResponse w message username bot).bot.conversationHistory
      = sliceLast 10 (bot.conversationHistory ++
          [⟨"user".toList, some message⟩, ⟨"assistant".toList, c⟩]) := by
  rw [getAIResponse_chatgpt w message username bot h, getChatGPTResponse_eq, hok]
  exact ⟨rfl, pushTurn_pushTurn _ _ _⟩

/-- The success case of `getAIResponse` with Gemini active. -/
theorem getAIResponse_gemini_success (w : World) (message username : JSString)
    (bot : MinecraftBot) (c : Option JSString) (h : bot.currentAIModel = "gemini".toList)
    (hok : geminiFetch (w.gemini (geminiRequest w.config message
      (systemPrompt w.config username))) = some c) :
    (getAIResponse w message username bot).result = .ok c ∧
    (getAIResponse w message username bot).bot.conversationHistory
      = sliceLast 10 (bot.conversationHistory ++
          [⟨"user".toList, some message⟩, ⟨"assistant".toList, c⟩]) := by
  rw [getAIResponse_gemini w message username bot h, getGeminiResponse_eq, hok]
  exact ⟨rfl, pushTurn_pushTurn _ _ _⟩

/-- The success case of `getAIResponse` with DeepSeek active. -/
theorem getAIResponse_deepseek_success (w : World) (message username : JSString)
    (bot : MinecraftBot) (c : Option JSString) (h : bot.currentAIModel = "deepseek".toList)
    (hok : chatFetch (w.deepseek (deepseekRequest w.config bot.conversationHistory message
      (systemPrompt w.config username))) = some c) :
    (getAIResponse w message username bot).result = .ok c ∧
    (getAIResponse w message username bot).bot.conversationHistory
      = sliceLast 10 (bot.conversationHistory ++
          [⟨"user".toList, some message⟩, ⟨"assistant".toList, c⟩]) := by
  rw [getAIResponse_deepseek w message username bot h, getDeepseekResponse_eq, hok]
  exact ⟨rfl, pushTurn_pushTurn _ _ _⟩

/-- C4, the code at the failing input. ChatGPT is active and answers with a first choice
whose message has no `content`, a response lacking an expected field. The adapter does not
throw: `getAIResponse` returns `undefined` (`none`), not the apology, and the history is
not left as it was: the user turn and an assistant turn without content are appended. -/
theorem getAIResponse_missing_content :
    (getAIResponse { sampleWorld with chatgpt := fun _ => some answerWithoutContent }
        "hello".toList "Steve".toList
        { sampleBot with conversationHistory := storedHistory }).result = .ok none ∧
    (getAIResponse { sampleWorld with chatgpt := fun _ => some answerWithoutContent }
        "hello".toList "Steve".toList
        { sampleBot with conversationHistory := storedHistory }).bot.conversationHistory
      = storedHistory ++
          [⟨"user".toList, some "hello".toList⟩, ⟨"assistant".toList, none⟩] ∧
    (processAIResponse { sampleWorld with chatgpt := fun _ => some answerWithoutContent }
        "Steve".toList "hello".toList false
        { sampleBot with conversationHistory := storedHistory }).calls.getLast?
      = some (.chat "@Steve Sorry, I'm having trouble thinking right now!".toList) := by
  refine ⟨?_, ?_, ?_⟩
  · rw [getAIResponse_chatgpt _ _ _ _ rfl, getChatGPTResponse_eq]; rfl
  · rw [getAIResponse_chatgpt _ _ _ _ rfl, getChatGPTResponse_eq]; rfl
  · rfl

/-! ### C5: switching the backend -/

theorem dropWhile_append_of_all {α : Type} (p : α → Bool) (ws rest : List α)
    (h : ∀ c ∈ ws, p c = true) : (ws ++ rest).dropWhile p = rest.dropWhile p := by
  induction ws with
  | nil => rfl
  | cons a ws ih =>
    have ha : p a = true := h a (List.mem_cons_self _ _)
    simp only [List.cons_append, List.dropWhile_cons, ha, if_true]
    exact ih (fun c hc => h c (List.mem_cons_of_mem _ hc))

theorem trim_surrounded (ws1 ws2 n rest : JSString) (a b : Char)
    (h1 : ∀ c ∈ ws1, isTrimmable c = true) (h2 : ∀ c ∈ ws2, isTrimmable c = true)
    (hn : n = a :: rest) (ha : isTrimmable a = false)
    (hl : n.reverse.head? = some b) (hb : isTrimmable b = false) :
    trim (ws1 ++ n ++ ws2) = n := by
  unfold trim
  rw [List.append_assoc, dropWhile_append_of_all _ _ _ h1]
  have e1 : (n ++ ws2).dropWhile isTrimmable = n ++ ws2 := by
    subst hn
    simp [List.dropWhile_cons, ha]
  rw [e1, List.reverse_append, dropWhile_append_of_all _ _ _ (by
    intro c hc; exact h2 c (List.mem_reverse.mp hc))]
  cases hr : n.reverse with
  | nil => rw [hr] at hl; cases hl
  | cons x xs =>
    rw [hr] at hl
    simp only [List.head?_cons, Option.some.injEq] at hl
    subst hl
    simp only [List.dropWhile_cons, hb, Bool.false_eq_true, if_false]
    rw [← hr, List.reverse_reverse]

theorem isPrefixOf_append_self (p rest : JSString) : p.isPrefixOf (p ++ rest) = true := by
  rw [List.isPrefixOf_iff_prefix]
  exact List.prefix_append p rest

theorem removeFirst_append_self (p rest : JSString) (hp : p ≠ []) :
    removeFirst p (p ++ rest) = rest := by
  cases p with
  | nil => exact absurd rfl hp
  | cons c cs =>
    have h : (c :: cs).isPrefixOf (c :: (cs ++ rest)) = true :=
      isPrefixOf_append_self (c :: cs) rest
    rw [List.cons_append, removeFirst, if_pos h]
    exact List.drop_left (c :: cs) rest

theorem processAIResponse_switch (w : World) (username message n : JSString)
    (isWhisper : Bool) (bot : MinecraftBot)
    (hsw : startsWith (toLowerCase message) "switch to ".toList = true)
    (hmodel : trim (removeFirst "switch to ".toList (toLowerCase message)) = n)
    (hn : n ∈ ["chatgpt".toList, "gemini".toList, "deepseek".toList]) :
    processAIResponse w username message isWhisper bot =
      ⟨.ok (), { bot with currentAIModel := n },
        [deliver username isWhisper
          ("Switched to ".toList ++ toUpperCase n ++ " model!".toList)]⟩ := by
  simp only [processAIResponse, hsw, hmodel, if_true, hn]
  simp only [List.mem_cons, List.mem_singleton, List.not_mem_nil, or_false] at hn
  rcases hn with rfl | rfl | rfl <;> rfl

/-- C5. Let the message, in lower case, be `switch to ` followed by a backend name `n`
(`chatgpt`, `gemini` or `deepseek`) with white space `ws1` before and `ws2` after the name.
Then `processAIResponse` returns without error, the session is the old one with `n` as its
active backend (so the history is unchanged), and the only call made is the delivery of
`Switched to N model!`, `N` being `n` in upper case: a whisper to the speaker, or the public
chat line `@speaker Switched to N model!`. No request is posted to a backend. Name by name,
the text delivered is `Switched to CHATGPT model!`, `Switched to GEMINI model!` or
`Switched to DEEPSEEK model!`. Such a message holds ASCII letters, blanks and white space
only, on which the lower-casing of JavaScript changes the letters `A` to `Z` and nothing
else. -/
theorem processAIResponse_switch_to (w : World) (username message n ws1 ws2 : JSString)
    (isWhisper : Bool) (bot : MinecraftBot)
    (hn : n ∈ ["chatgpt".toList, "gemini".toList, "deepseek".toList])
    (h1 : ∀ c ∈ ws1, isTrimmable c = true) (h2 : ∀ c ∈ ws2, isTrimmable c = true)
    (hm : toLowerCase message = "switch to ".toList ++ ws1 ++ n ++ ws2) :
    (processAIResponse w username message isWhisper bot).result = .ok () ∧
    (processAIResponse w username message isWhisper bot).bot
      = { bot with currentAIModel := n } ∧
    (processAIResponse w username message isWhisper bot).calls
      = [deliver username isWhisper
          ("Switched to ".toList ++ toUpperCase n ++ " model!".toList)] ∧
    (∀ request, Effect.post request ∉
      (processAIResponse w username message isWhisper bot).calls) ∧
    (processAIResponse w username message isWhisper bot).bot.conversationHistory
      = bot.conversationHistory ∧
    (n = "chatgpt".toList →
      (processAIResponse w username message isWhisper bot).calls
        = [if isWhisper then Effect.whisper username "Switched to CHATGPT model!".toList
           else Effect.chat
             ("@".toList ++ username ++ " ".toList ++ "Switched to CHATGPT model!".toList)]) ∧
    (n = "gemini".toList →
      (processAIResponse w username message isWhisper bot).calls
        = [if isWhisper then Effect.whisper username "Switched to GEMINI model!".toList
           else Effect.chat
             ("@".toList ++ username ++ " ".toList ++ "Switched to GEMINI model!".toList)]) ∧
    (n = "deepseek".toList →
      (processAIResponse w username message isWhisper bot).calls
        = [if isWhisper then Effect.whisper username "Switched to DEEPSEEK model!".toList
           else Effect.chat
             ("@".toList ++ username ++ " ".toList ++ "Switched to DEEPSEEK model!".toList)])
    := by
  have hsw : startsWith (toLowerCase message) "switch to ".toList = true := by
    rw [hm, List.append_assoc, List.append_assoc]
    exact isPrefixOf_append_self _ _
  have hrem : removeFirst "switch to ".toList (toLowerCase message) = ws1 ++ n ++ ws2 := by
    rw [hm, List.append_assoc, List.append_assoc,
      removeFirst_append_self "switch to ".toList _ (by decide), List.append_assoc]
  have htrim : trim (ws1 ++ n ++ ws2) = n := by
    simp only [List.mem_cons, List.mem_singleton, List.not_mem_nil, or_false] at hn
    rcases hn with rfl | rfl | rfl
    · exact trim_surrounded ws1 ws2 _ _ 'c' 't' h1 h2 rfl (by decide) rfl (by decide)
    · exact trim_surrounded ws1 ws2 _ _ 'g' 'i' h1 h2 rfl (by decide) rfl (by decide)
    · exact trim_surrounded ws1 ws2 _ _ 'd' 'k' h1 h2 rfl (by decide) rfl (by decide)
  rw [processAIResponse_switch w username message n isWhisper bot hsw (by rw [hrem, htrim]) hn]
  refine ⟨rfl, rfl, rfl, ?_, rfl, ?_, ?_, ?_⟩
  · intro request hmem
    simp only [List.mem_singleton, deliver] at hmem
    split at hmem <;> cases hmem
  · rintro rfl; rfl
  · rintro rfl; rfl
  · rintro rfl; rfl

/-- C5, witness: the public message `switch to gemini`, sent by `Steve` while ChatGPT is
active, is answered in the chat with `@Steve Switched to GEMINI model!`; the whisper
`Switch TO  DeepSeek `, with its capitals and its blanks around the name, is answered with
the whisper `Switched to DEEPSEEK model!`. -/
theorem processAIResponse_switch_to_witness :
    sampleBot.currentAIModel = "chatgpt".toList ∧
    (processAIResponse sampleWorld "Steve".toList "switch to gemini".toList false
        sampleBot).result = .ok () ∧
    (processAIResponse sampleWorld "Steve".toList "switch to gemini".toList false
        sampleBot).bot = { sampleBot with currentAIModel := "gemini".toList } ∧
    (processAIResponse sampleWorld "Steve".toList "switch to gemini".toList false
        sampleBot).calls = [.chat "@Steve Switched to GEMINI model!".toList] ∧
    (∀ request, Effect.post request ∉
      (processAIResponse sampleWorld "Steve".toList "switch to gemini".toList false
        sampleBot).calls) ∧
    (processAIResponse sampleWorld "Steve".toList "switch to gemini".toList false
        sampleBot).bot.conversationHistory = sampleBot.conversationHistory ∧
    (processAIResponse sampleWorld "Steve".toList "Switch TO  DeepSeek ".toList true
        sampleBot).bot = { sampleBot with currentAIModel := "deepseek".toList } ∧
    (processAIResponse sampleWorld "Steve".toList "Switch TO  DeepSeek ".toList true
        sampleBot).calls = [.whisper "Steve".toList "Switched to DEEPSEEK model!".toList] :=
  have h := processAIResponse_switch_to sampleWorld "Steve".toList "switch to gemini".toList
    "gemini".toList [] [] false sampleBot (by decide) (by simp) (by simp) (by decide)
  have k := processAIResponse_switch_to sampleWorld "Steve".toList
    "Switch TO  DeepSeek ".toList "deepseek".toList " ".toList " ".toList true sampleBot
    (by decide) (by decide) (by decide) (by decide)
  ⟨rfl, h.1, h.2.1, h.2.2.2.2.2.2.1 rfl, h.2.2.2.1, h.2.2.2.2.1, k.2.1, k.2.2.2.2.2.2.2 rfl⟩

/-- The white space that is ignored is the white space around the backend name. A whisper
reaches `processAIResponse` as it was typed: with a blank before `switch` it does not start
with `switch to `, it is sent to the active backend, and the backend stays the same. -/
theorem whisper_with_leading_space_is_no_switch :
    startsWith (toLowerCase " switch to gemini".toList) "switch to ".toList = false ∧
    (processAIResponse sampleWorld "Steve".toList " switch to gemini".toList true
      sampleBot).bot.currentAIModel = "chatgpt".toList ∧
    ∃ request rest,
      (processAIResponse sampleWorld "Steve".toList " switch to gemini".toList true
        sampleBot).calls = .post request :: rest :=
  ⟨rfl, rfl, _, _, rfl⟩
/-! ### C6: following a player -/

/-- For the name it receives, `followPlayer` does what the follow command promises: a name
for which the player list has nothing is answered with `Player <name> not found!` and the
session is untouched; a name for which it has a value is answered with
`Now following <name>!`, becomes the follow target, and the follow loop is started. -/
theorem followPlayer_spec (w : World) (targetName : JSString) (bot : MinecraftBot) :
    (playerNamed w targetName = none →
      followPlayer w targetName bot
        = ⟨.ok (), bot, [.chat ("Player ".toList ++ targetName ++ " not found!".toList)]⟩) ∧
    (∀ player, playerNamed w targetName = some player →
      followPlayer w targetName bot
        = ⟨.ok (), { bot with followTarget := some targetName, isFollowing := true },
            [.chat ("Now following ".toList ++ targetName ++ "!".toList),
             .setInterval 1000]⟩) := by
  constructor
  · intro h
    simp only [followPlayer, h]
    rfl
  · intro player h
    simp only [followPlayer, h]
    rfl

/-- C6, the code at the failing input. `Steve` types `!follow Alice`. The listener puts the
whole line in lower case before it splits it, so the name looked up and echoed is `alice`.
With `Alice` connected the bot answers `Player alice not found!` and does not follow; with
nobody connected the answer is the same line, which is not `Player Alice not found!`. -/
theorem follow_Alice_looks_up_alice :
    playerNamed sampleWorld "Alice".toList = some ⟨some ⟨1, 64, 1⟩⟩ ∧
    onCommand sampleWorld "Steve".toList "!follow Alice".toList sampleBot
      = ⟨.ok (), sampleBot, [.chat "Player alice not found!".toList]⟩ ∧
    sampleBot.isFollowing = false ∧ sampleBot.followTarget = none ∧
    onCommand { sampleWorld with players := [] } "Steve".toList "!follow Alice".toList
        sampleBot
      = ⟨.ok (), sampleBot, [.chat "Player alice not found!".toList]⟩ ∧
    "Player alice not found!".toList ≠ "Player Alice not found!".toList := by
  refine ⟨rfl, rfl, rfl, rfl, rfl, by decide⟩

/-- The player list answers for the names every object inherits: with `Alice` alone
connected, `bot.players['constructor']` is truthy, `!follow constructor` is answered with
`Now following constructor!`, and `!team constructor` puts the name on the roster. The value
has no `entity`, so the first tick of the follow loop loses sight of the target. -/
theorem playerNamed_inherited :
    playerNamed sampleWorld "constructor".toList = some ⟨none⟩ ∧
    playerNamed sampleWorld "__proto__".toList = some ⟨none⟩ ∧
    playerNamed sampleWorld "alice".toList = none ∧
    onCommand sampleWorld "Steve".toList "!follow constructor".toList sampleBot
      = ⟨.ok (),
          { sampleBot with followTarget := some "constructor".toList, isFollowing := true },
          [.chat "Now following constructor!".toList, .setInterval 1000]⟩ ∧
    (followTick sampleWorld
        { sampleBot with followTarget := some "constructor".toList, isFollowing := true }).calls
      = [.chat "Lost sight of constructor!".toList, .setGoal none,
          .chat "Stopped following.".toList, .clearInterval] ∧
    onCommand sampleWorld "Steve".toList "!team constructor".toList sampleBot
      = ⟨.ok (), { sampleBot with teamMembers := ["constructor".toList] },
          [.chat "constructor added to team! Team size: 1".toList]⟩ := by
  refine ⟨rfl, rfl, rfl, rfl, rfl, rfl⟩

/-! ### C7: removing from the team -/

/-- For the name it receives, `removeFromTeam` answers `<name> is not in the team!` and
leaves the session untouched when the name is not in the roster. -/
theorem removeFromTeam_absent (playerName : JSString) (bot : MinecraftBot)
    (h : playerName ∉ bot.teamMembers) :
    removeFromTeam playerName bot
      = ⟨.ok (), bot, [.chat (playerName ++ " is not in the team!".toList)]⟩ := by
  simp only [removeFromTeam, bind, Handler.bind, getBot, h, if_false]
  rfl

/-- C7, the code at the failing input. `Steve` types `!removeteam Bob`, and `Bob` was never
added. The name the listener passes on is `bob`: with an empty roster the answer is
`bob is not in the team!`, not `Bob is not in the team!`; with the roster `bob` (a player
other than `Bob`) the line removes `bob` from the roster. -/
theorem removeteam_Bob_acts_on_bob :
    onCommand sampleWorld "Steve".toList "!removeteam Bob".toList sampleBot
      = ⟨.ok (), sampleBot, [.chat "bob is not in the team!".toList]⟩ ∧
    "bob is not in the team!".toList ≠ "Bob is not in the team!".toList ∧
    "Bob".toList ∉ ["bob".toList] ∧
    onCommand sampleWorld "Steve".toList "!removeteam Bob".toList
        { sampleBot with teamMembers := ["bob".toList] }
      = ⟨.ok (), sampleBot, [.chat "bob removed from team! Team size: 0".toList]⟩ := by
  refine ⟨rfl, by decide, by decide, rfl⟩

/-! ### C8: going home -/

theorem rat_floor_intCast (z : Int) : Rat.floor (z : ℚ) = z := by
  rw [Rat.floor_def']
  simp

theorem bind_pure_unit (m : Handler Unit) :
    Handler.bind m (fun _ => Handler.pure ()) = m := by
  funext bot
  unfold Handler.bind Handler.pure
  rcases h : m bot with ⟨r, b, c⟩
  rcases r with e | u
  · rfl
  · simp

theorem onCommand_sethome (w : World) (speaker : JSString) (bot : MinecraftBot)
    (h : speaker ≠ w.username) :
    onCommand w speaker "!sethome".toList bot = setHome w bot := by
  unfold onCommand
  rw [if_neg h]
  rfl

theorem onCommand_home (w : World) (speaker : JSString) (bot : MinecraftBot)
    (h : speaker ≠ w.username) :
    onCommand w speaker "!home".toList bot = goHome w bot := by
  unfold onCommand
  rw [if_neg h]
  have e : goHome w bot = Handler.bind (goHome w) (fun _ => Handler.pure ()) bot := by
    rw [bind_pure_unit]
  rw [e]
  rfl

theorem goHome_of_home (w : World) (bot : MinecraftBot) (home : Location)
    (h : bot.homeLocation = some home) :
    goHome w bot = ⟨.ok (), bot,
      .chat ("Going home to ".toList ++ coordinates home) ::
      (if w.pathfinder then [.setGoal (some ⟨home.x, home.y, home.z, 1⟩)]
       else [.lookAt ⟨home.x, home.y, home.z⟩,
             .chat ("Heading to ".toList ++ coordinates home ++ "...".toList)])⟩ := by
  simp only [goHome, bind, Handler.bind, getBot, h, navigateToLocation, rat_floor_intCast]
  cases w.pathfinder <;> simp [emit, coordinates, Handler.bind, bind]

/-- C8. Let `!sethome` be handled in a world `w1`, where the bot stands at `w1.position`,
and `!home` right after it in a world `w2`, both typed by speakers other than the bot, from
any session state. Then the home stored is `(floor x, floor y, floor z)` of `w1.position`,
`!home` does not fail, and it issues exactly one navigation intent, whose target is that
point: with the pathfinder, the goal `GoalNear(floor x, floor y, floor z, 1)` after the
announcement `Going home to ...`; without it, the fallback `lookAt` of that point between
the announcements `Going home to ...` and `Heading to ...`. -/
theorem sethome_then_home_targets_home (w1 w2 : World) (speaker1 speaker2 : JSString)
    (bot : MinecraftBot) (h1 : speaker1 ≠ w1.username) (h2 : speaker2 ≠ w2.username) :
    (onCommand w1 speaker1 "!sethome".toList bot).bot.homeLocation
      = some ⟨Rat.floor w1.position.x, Rat.floor w1.position.y, Rat.floor w1.position.z,
          w1.dimension⟩ ∧
    (onCommand w2 speaker2 "!home".toList
      (onCommand w1 speaker1 "!sethome".toList bot).bot).result = .ok () ∧
    navigationTargets (onCommand w2 speaker2 "!home".toList
      (onCommand w1 speaker1 "!sethome".toList bot).bot).calls
      = [⟨Rat.floor w1.position.x, Rat.floor w1.position.y, Rat.floor w1.position.z⟩] ∧
    (w2.pathfinder = true →
      (onCommand w2 speaker2 "!home".toList
        (onCommand w1 speaker1 "!sethome".toList bot).bot).calls
        = [.chat ("Going home to ".toList ++ coordinates (currentLocation w1)),
           .setGoal (some ⟨Rat.floor w1.position.x, Rat.floor w1.position.y,
             Rat.floor w1.position.z, 1⟩)]) ∧
    (w2.pathfinder = false →
      (onCommand w2 speaker2 "!home".toList
        (onCommand w1 speaker1 "!sethome".toList bot).bot).calls
        = [.chat ("Going home to ".toList ++ coordinates (currentLocation w1)),
           .lookAt ⟨Rat.floor w1.position.x, Rat.floor w1.position.y,
             Rat.floor w1.position.z⟩,
           .chat ("Heading to ".toList ++ coordinates (currentLocation w1) ++
             "...".toList)]) := by
  have hset : (onCommand w1 speaker1 "!sethome".toList bot).bot.homeLocation
      = some (currentLocation w1) := by
    rw [onCommand_sethome w1 speaker1 bot h1]
    rfl
  rw [onCommand_home w2 speaker2 _ h2, goHome_of_home w2 _ (currentLocation w1) hset]
  refine ⟨hset, rfl, ?_, ?_, ?_⟩
  · cases w2.pathfinder <;> rfl
  · intro hp
    rw [hp]
    rfl
  · intro hp
    rw [hp]
    rfl

theorem rat_floor_eq (q : ℚ) (z : Int) (h1 : (z : ℚ) ≤ q) (h2 : q < z + 1) :
    Rat.floor q = z := by
  have e : Rat.floor q = ⌊q⌋ := by rw [Rat.floor_def', Rat.floor_def]
  rw [e, Int.floor_eq_iff]
  exact ⟨h1, h2⟩

theorem sampleWorld_location :
    currentLocation sampleWorld = ⟨10, 64, -4, "overworld".toList⟩ := by
  have hx : Rat.floor (21 / 2 : ℚ) = 10 := rat_floor_eq _ _ (by norm_num) (by norm_num)
  have hy : Rat.floor (64 : ℚ) = 64 := rat_floor_eq _ _ (by norm_num) (by norm_num)
  have hz : Rat.floor (-7 / 2 : ℚ) = -4 := rat_floor_eq _ _ (by norm_num) (by norm_num)
  simp only [currentLocation, sampleWorld, hx, hy, hz]

/-- C8, witness: `Steve` types `!sethome` and `!home` while the bot stands at
`(10.5, 64, -3.5)`; the pathfinder is loaded. The home stored and the target of the only
navigation intent are `(10, 64, -4)`. -/
theorem sethome_then_home_targets_home_witness :
    (onCommand sampleWorld "Steve".toList "!sethome".toList sampleBot).bot.homeLocation
      = some ⟨10, 64, -4, "overworld".toList⟩ ∧
    navigationTargets (onCommand sampleWorld "Steve".toList "!home".toList
      (onCommand sampleWorld "Steve".toList "!sethome".toList sampleBot).bot).calls
      = [⟨10, 64, -4⟩] := by
  have h := sethome_then_home_targets_home sampleWorld sampleWorld "Steve".toList
    "Steve".toList sampleBot (by decide) (by decide)
  have e := sampleWorld_location
  simp only [currentLocation, Location.mk.injEq] at e
  obtain ⟨ex, ey, ez, ed⟩ := e
  rw [ex, ey, ez, ed] at h
  exact ⟨h.1, by simpa using h.2.2.1⟩

/-! ### C9: the cleaning step of `handleChatMessage` -/

theorem matchesNameAt_append (name t b : JSString) (h : matchesNameAt name t = true) :
    matchesNameAt name (t ++ b) = true := by
  induction name generalizing t with
  | nil => simp [matchesNameAt]
  | cons n ns ih =>
    cases t with
    | nil => simp [matchesNameAt] at h
    | cons c cs =>
      simp only [matchesNameAt, Bool.and_eq_true] at h
      simp only [List.cons_append, matchesNameAt, Bool.and_eq_true]
      exact ⟨h.1, ih cs h.2⟩

theorem occursName_eq_false_iff (name s : JSString) :
    occursName name s = false ↔ ∀ t, t <:+ s → matchesNameAt name t = false := by
  unfold occursName
  rw [List.any_eq_false]
  constructor
  · intro h t ht
    simpa using h t ((List.mem_tails t s).mpr ht)
  · intro h t ht
    simpa using h t ((List.mem_tails t s).mp ht)

theorem removeNameGo_of_no_match (name : JSString) :
    ∀ (fuel : Nat) (s : JSString), (∀ t, t <:+ s → matchesNameAt name t = false) →
      removeNameGo name fuel s = s := by
  intro fuel
  induction fuel with
  | zero => intro s _; rfl
  | succ fuel ih =>
    intro s hs
    cases s with
    | nil => rfl
    | cons c cs =>
      have h0 : matchesNameAt name (c :: cs) = false := hs _ (List.suffix_refl _)
      rw [removeNameGo]
      simp only [h0, Bool.false_eq_true, if_false]
      rw [ih cs (fun t ht => hs t (ht.trans (List.suffix_cons c cs)))]

/-- The search of `removeNameGo` never runs out of fuel when the fuel is at least the length
of the text: more fuel changes nothing. -/
theorem removeNameGo_fuel (name : JSString) (hname : name ≠ []) :
    ∀ (fuel1 fuel2 : Nat) (s : JSString), s.length ≤ fuel1 → s.length ≤ fuel2 →
      removeNameGo name fuel1 s = removeNameGo name fuel2 s := by
  intro fuel1
  induction fuel1 with
  | zero =>
    intro fuel2 s h1 _
    have hs : s = [] := List.length_eq_zero.mp (Nat.le_zero.mp h1)
    subst hs
    cases fuel2 <;> rfl
  | succ f1 ih =>
    intro fuel2 s h1 h2
    cases s with
    | nil => cases fuel2 <;> rfl
    | cons c cs =>
      cases fuel2 with
      | zero => simp at h2
      | succ f2 =>
        simp only [List.length_cons, Nat.add_le_add_iff_right] at h1 h2
        rw [removeNameGo, removeNameGo]
        obtain ⟨k, hk⟩ : ∃ k, name.length = k + 1 := by
          cases name with
          | nil => exact absurd rfl hname
          | cons a as => exact ⟨as.length, rfl⟩
        split
        · rw [hk, List.drop_succ_cons]
          apply ih f2
          · rw [List.length_drop]; omega
          · rw [List.length_drop]; omega
        · rw [ih f2 cs h1 h2]

theorem removeName_of_no_occurrence (name s : JSString) (h : occursName name s = false) :
    removeName name s = s := by
  unfold removeName
  split
  · rfl
  · exact removeNameGo_of_no_match name _ s ((occursName_eq_false_iff name s).mp h)

theorem occursName_infix (name a s b : JSString) (h : occursName name (a ++ s ++ b) = false) :
    occursName name s = false := by
  rw [occursName_eq_false_iff] at h ⊢
  intro t ht
  obtain ⟨p, hp⟩ := ht
  by_contra hc
  have hm : matchesNameAt name t = true := by simpa using hc
  have := h (t ++ b) ⟨a ++ p, by rw [← hp]; simp [List.append_assoc]⟩
  rw [matchesNameAt_append name t b hm] at this
  cases this

theorem dropWhile_head_false {α : Type} (p : α → Bool) (l rest : List α) (x : α)
    (h : l.dropWhile p = x :: rest) : p x = false := by
  induction l with
  | nil => cases h
  | cons a l ih =>
    rw [List.dropWhile_cons] at h
    split at h
    · exact ih h
    · next hn =>
      simp only [List.cons.injEq] at h
      rw [← h.1]
      simpa using hn

theorem dropWhile_idem {α : Type} (p : α → Bool) (l : List α) :
    (l.dropWhile p).dropWhile p = l.dropWhile p := by
  cases h : l.dropWhile p with
  | nil => rfl
  | cons x rest =>
    have hx := dropWhile_head_false p l rest x h
    rw [List.dropWhile_cons, if_neg (by simp [hx])]

theorem dropWhile_append_singleton {α : Type} (p : α → Bool) (xs : List α) (c : α)
    (hc : p c = false) : (xs ++ [c]).dropWhile p = xs.dropWhile p ++ [c] := by
  induction xs with
  | nil => simp [List.dropWhile_cons, hc]
  | cons a xs ih =>
    simp only [List.cons_append, List.dropWhile_cons]
    split
    · exact ih
    · rfl

theorem trim_decompose (m : JSString) : ∃ a b : JSString, m = a ++ trim m ++ b := by
  refine ⟨m.takeWhile isTrimmable,
    (((m.dropWhile isTrimmable).reverse).takeWhile isTrimmable).reverse, ?_⟩
  unfold trim
  rw [List.append_assoc, ← List.reverse_append, List.takeWhile_append_dropWhile,
    List.reverse_reverse, List.takeWhile_append_dropWhile]

theorem trim_trim (m : JSString) : trim (trim m) = trim m := by
  have hA : (trim m).dropWhile isTrimmable = trim m := by
    cases ht : trim m with
    | nil => rfl
    | cons x rest =>
      have hsuf : ((m.dropWhile isTrimmable).reverse).dropWhile isTrimmable
          <:+ (m.dropWhile isTrimmable).reverse := List.dropWhile_suffix _
      obtain ⟨s, hs⟩ := hsuf
      have hd : m.dropWhile isTrimmable = trim m ++ s.reverse := by
        unfold trim
        rw [← List.reverse_append, hs, List.reverse_reverse]
      rw [ht, List.cons_append] at hd
      have hx := dropWhile_head_false isTrimmable m _ x hd
      rw [List.dropWhile_cons, if_neg (by simp [hx])]
  have hB : trim (trim m)
      = (((trim m).dropWhile isTrimmable).reverse.dropWhile isTrimmable).reverse := rfl
  rw [hB, hA]
  unfold trim
  rw [List.reverse_reverse, dropWhile_idem]

theorem removeLeadingMark_of_not_mark (m : JSString) (h : startsWithMark m = false) :
    removeLeadingMark m = m := by
  cases m with
  | nil => rfl
  | cons c cs =>
    unfold removeLeadingMark
    unfold startsWithMark startsWith at h
    simp only [String.toList, List.isPrefixOf, Bool.and_true, Bool.or_eq_false_iff,
      beq_eq_false_iff_ne, ne_eq] at h
    have h1 : ¬ (c = '@') := fun e => h.2 e.symm
    have h2 : ¬ (c = '!') := fun e => h.1 e.symm
    simp [h1, h2]

theorem startsWithMark_trim (m : JSString) (h : startsWithMark m = true) :
    startsWithMark (trim m) = true := by
  cases m with
  | nil => simp [startsWithMark, startsWith] at h
  | cons c cs =>
    have hc : c = '!' ∨ c = '@' := by
      unfold startsWithMark startsWith at h
      simp only [String.toList, List.isPrefixOf, Bool.and_true, Bool.or_eq_true,
        beq_iff_eq] at h
      rcases h with h | h
      · exact Or.inl h.symm
      · exact Or.inr h.symm
    have hp : isTrimmable c = false := by
      rcases hc with rfl | rfl <;> decide
    have ht : trim (c :: cs) = c :: ((cs.reverse).dropWhile isTrimmable).reverse := by
      unfold trim
      rw [List.dropWhile_cons, if_neg (by simp [hp]), List.reverse_cons,
        dropWhile_append_singleton _ _ _ hp, List.reverse_append]
      rfl
    rw [ht]
    rcases hc with rfl | rfl <;> simp [startsWithMark, startsWith, List.isPrefixOf]

/-- C9, counterexample. The bot is named `Bot` and the message is ` !hi` (a space, then
`!hi`). The message has no occurrence of the name and does not start with `!` or `@`.
Cleaning it gives `!hi`, the leading mark coming to the front only once the space is
trimmed, and cleaning that gives `hi`: cleaning twice is not cleaning once. -/
theorem cleanMessage_not_idempotent :
    occursName "Bot".toList " !hi".toList = false ∧
    startsWithMark " !hi".toList = false ∧
    cleanMessage "Bot".toList " !hi".toList = "!hi".toList ∧
    cleanMessage "Bot".toList (cleanMessage "Bot".toList " !hi".toList) = "hi".toList ∧
    cleanMessage "Bot".toList (cleanMessage "Bot".toList " !hi".toList)
      ≠ cleanMessage "Bot".toList " !hi".toList := by
  decide

/-- C9, amended. Let the bot's name be one the regular expression reads literally: ASCII
letters, digits and underscores. For every message `m` that has no occurrence of the name
and that, once the white space around it is trimmed, does not start with `!` or `@`,
cleaning is idempotent: cleaning the cleaned message gives the cleaned message. -/
theorem cleanMessage_idempotent (name m : JSString) :
    isLiteralName name = true → occursName name m = false →
    startsWithMark (trim m) = false →
    cleanMessage name (cleanMessage name m) = cleanMessage name m := by
  intro _ h1 h2
  have hm : startsWithMark m = false := by
    by_contra hc
    have := startsWithMark_trim m (by simpa using hc)
    rw [h2] at this
    cases this
  have e1 : cleanMessage name m = trim m := by
    unfold cleanMessage
    rw [removeName_of_no_occurrence name m h1, removeLeadingMark_of_not_mark m hm]
  obtain ⟨a, b, hab⟩ := trim_decompose m
  have h3 : occursName name (trim m) = false := by
    rw [hab] at h1
    exact occursName_infix name a (trim m) b h1
  rw [e1]
  unfold cleanMessage
  rw [removeName_of_no_occurrence name (trim m) h3, removeLeadingMark_of_not_mark _ h2,
    trim_trim]

/-- C9, witness of the amended claim: the bot is named `Bot`, a name read literally (which
`B.t` is not), the message is `  hello there ` with white space around it, and cleaning it
gives `hello there`. The message `hey BOT` is not a witness: the name occurs in it, and is
removed by the cleaning. -/
theorem cleanMessage_idempotent_witness :
    isLiteralName "Bot".toList = true ∧ isLiteralName "B.t".toList = false ∧
    occursName "Bot".toList "hey BOT".toList = true ∧
    cleanMessage "Bot".toList "hey BOT".toList = "hey".toList ∧
    occursName "Bot".toList "  hello there ".toList = false ∧
    startsWithMark (trim "  hello there ".toList) = false ∧
    cleanMessage "Bot".toList "  hello there ".toList = "hello there".toList ∧
    cleanMessage "Bot".toList (cleanMessage "Bot".toList "  hello there ".toList)
      = cleanMessage "Bot".toList "  hello there ".toList :=
  ⟨by decide, by decide, by decide, by decide, by decide, by decide, by decide,
    cleanMessage_idempotent "Bot".toList "  hello there ".toList (by decide) (by decide)
      (by decide)⟩

/-- The cleaning step on messages directed at the bot `Bot`. Every occurrence of the name
goes, in any letter case, and one mark at the very start goes. A mark that follows the name
stays, whatever the comment `Remove bot name and command prefixes` says: `Bot !hi` is
cleaned to `!hi`. The name `B.t` is not read literally, the name `Steve_01` is. -/
theorem cleanMessage_examples :
    cleanMessage "Bot".toList "@Bot hello".toList = "hello".toList ∧
    cleanMessage "Bot".toList "hey BOT, are you a bot?".toList = "hey , are you a ?".toList ∧
    cleanMessage "Bot".toList "!where is the village".toList
      = "where is the village".toList ∧
    cleanMessage "Bot".toList "!@hi".toList = "@hi".toList ∧
    cleanMessage "Bot".toList "Bot !hi".toList = "!hi".toList ∧
    cleanMessage "Bot".toList "bot".toList = [] ∧
    isLiteralName "B.t".toList = false ∧ isLiteralName "Steve_01".toList = true := by
  decide

/-! ### C10: unknown structure names -/

theorem structures_keys : structures.map Prod.fst = supportedNames := by decide

theorem lookup_eq_none_iff_not_mem_keys {β : Type} (key : JSString)
    (l : List (JSString × β)) : l.lookup key = none ↔ key ∉ l.map Prod.fst := by
  induction l with
  | nil => simp [List.lookup]
  | cons p l ih =>
    obtain ⟨k, v⟩ := p
    by_cases hk : key = k
    · subst hk
      have hb : (key == key) = true := beq_self_eq_true key
      simp only [List.lookup, hb, List.map_cons, List.mem_cons, true_or, not_true_eq_false,
        iff_false]
      intro h
      cases h
    · have hb : (key == k) = false := by simpa using hk
      simp only [List.lookup, hb, List.map_cons, List.mem_cons, hk, false_or]
      exact ih

/-- The property read `structures[key]` is `undefined` exactly for the keys that are
neither one of the ten supported names nor a property inherited from `Object.prototype`. -/
theorem structuresGet_eq_none_iff (key : JSString) :
    structuresGet key = none ↔ key ∉ supportedNames ∧ key ∉ objectPrototypeProperties := by
  unfold structuresGet
  rw [← structures_keys, ← lookup_eq_none_iff_not_mem_keys]
  cases h : structures.lookup key with
  | some f => simp
  | none =>
    by_cases hk : key ∈ objectPrototypeProperties
    · simp [hk]
    · simp [hk]

/-- For every structure name whose lower-case form is neither a supported name nor a
property inherited from `Object.prototype`, `findStructure` does not fail, records the name
as the search target, and makes two calls only: the announcement `Searching for <name>...`
and the message that lists the supported names. No lookup is run and no navigation intent
is issued. -/
theorem findStructure_unknown (w : World) (structureName : JSString) (bot : MinecraftBot)
    (h1 : toLowerCase structureName ∉ supportedNames)
    (h2 : toLowerCase structureName ∉ objectPrototypeProperties) :
    findStructure w structureName bot =
      ⟨.ok (), { bot with searchingFor := some structureName },
        [.chat ("Searching for ".toList ++ structureName ++ "...".toList),
         .chat ("Don't know how to find ".toList ++ structureName ++
          ". Available: village, cave, mine, water, lava, tree, stone, iron, coal, diamond".toList)]⟩ := by
  have h := (structuresGet_eq_none_iff (toLowerCase structureName)).mpr ⟨h1, h2⟩
  simp only [findStructure, h]
  rfl

/-- C10, the code at the failing input. `Steve` types `!find constructor`. The name is not
one of the ten supported names, yet `structures['constructor']` is not `undefined`: it is
the function `Object`, inherited from `Object.prototype`. It is called and returns, and the
only message is `Searching for constructor...`; the list of supported names is not sent.
With `!find __proto__` the inherited value is not a function and the handler throws. -/
theorem find_constructor_sends_no_list :
    "constructor".toList ∉ supportedNames ∧
    onCommand sampleWorld "Steve".toList "!find constructor".toList sampleBot
      = ⟨.ok (), { sampleBot with searchingFor := some "constructor".toList },
          [.chat "Searching for constructor...".toList]⟩ ∧
    "__proto__".toList ∉ supportedNames ∧
    onCommand sampleWorld "Steve".toList "!find __proto__".toList sampleBot
      = ⟨.error (.typeError "searchFunction is not a function"),
          { sampleBot with searchingFor := some "__proto__".toList },
          [.chat "Searching for __proto__...".toList]⟩ := by
  refine ⟨by decide, rfl, by decide, rfl⟩

/-! ### C11: the length of what is sent -/

theorem callsAll_pure {α : Type} (P : Effect → Prop) (a : α) :
    CallsAll P (pure a : Handler α) := by
  constructor
  intro bot e he
  cases he

theorem callsAll_throwJS {α : Type} (P : Effect → Prop) (err : JSError) :
    CallsAll P (throwJS err : Handler α) := by
  constructor
  intro bot e he
  cases he

theorem callsAll_emit {P : Effect → Prop} (e : Effect) (h : P e) : CallsAll P (emit e) := by
  constructor
  intro bot x hx
  simp only [MinecraftAI.emit, List.mem_singleton] at hx
  rw [hx]
  exact h

theorem callsAll_emitAll {P : Effect → Prop} (es : List Effect) (h : ∀ e ∈ es, P e) :
    CallsAll P (emitAll es) := ⟨fun _ e he => h e he⟩

theorem callsAll_bind {α β : Type} {P : Effect → Prop} {m : Handler α} {f : α → Handler β}
    (hm : CallsAll P m) (hf : ∀ a, CallsAll P (f a)) : CallsAll P (m >>= f) := by
  constructor
  intro bot e he
  change e ∈ (Handler.bind m f bot).calls at he
  unfold Handler.bind at he
  have h1 := hm.all bot
  rcases h : m bot with ⟨r, b, c⟩
  rw [h] at h1 he
  rcases r with err | a
  · exact h1 e he
  · simp only [List.mem_append] at he
    rcases he with he | he
    · exact h1 e he
    · exact (hf a).all b e he

theorem callsAll_tryCatch {α : Type} {P : Effect → Prop} {body : Handler α}
    {handler : JSError → Handler α} (hb : CallsAll P body)
    (hh : ∀ e, CallsAll P (handler e)) : CallsAll P (tryCatch body handler) := by
  constructor
  intro bot e he
  unfold MinecraftAI.tryCatch at he
  have h1 := hb.all bot
  rcases h : body bot with ⟨r, b, c⟩
  rw [h] at h1 he
  rcases r with err | a
  · simp only [List.mem_append] at he
    rcases he with he | he
    · exact h1 e he
    · exact (hh err).all b e he
  · exact h1 e he

theorem sendContent_deliver (speaker part : JSString) (isWhisper : Bool) :
    sendContent speaker (deliver speaker isWhisper part) = some part := by
  cases isWhisper
  · have hp : ("@".toList ++ speaker ++ " ".toList).isPrefixOf
        ("@".toList ++ speaker ++ " ".toList ++ part) = true := isPrefixOf_append_self _ _
    simp only [deliver, Bool.false_eq_true, if_false, sendContent, hp, if_true,
      List.drop_left]
  · rfl

/-- Every match of `.{1,n}` has at most `n` characters, whatever the text. -/
theorem matchDotRuns_length_le (n : Nat) :
    ∀ (fuel : Nat) (s : JSString), ∀ p ∈ matchDotRuns n fuel s, p.length ≤ n := by
  intro fuel
  induction fuel with
  | zero => intro s p hp; simp [matchDotRuns] at hp
  | succ fuel ih =>
    intro s p hp
    cases s with
    | nil => simp [matchDotRuns] at hp
    | cons c cs =>
      rw [matchDotRuns] at hp
      split at hp
      · exact ih cs p hp
      · rcases List.mem_cons.mp hp with rfl | hp
        · rw [List.length_take]; exact Nat.min_le_left _ _
        · exact ih _ p hp

theorem matchParts_length_le (m : JSString) (parts : List JSString)
    (h : matchParts 100 m = some parts) : ∀ p ∈ parts, p.length ≤ 100 := by
  unfold matchParts at h
  split at h
  · cases h
  · simp only [Option.some.injEq] at h
    subst h
    exact matchDotRuns_length_le 100 _ _

/-- Whatever the message, no send of `sendResponse` carries more than 100 characters of
message content. -/
theorem sendResponse_short (speaker : JSString) (message : Option JSString)
    (isWhisper : Bool) :
    CallsAll (fun e => ∀ c, sendContent speaker e = some c → c.length ≤ 100)
      (sendResponse speaker message isWhisper) := by
  cases message with
  | none => exact callsAll_throwJS _ _
  | some m =>
    unfold sendResponse
    simp only
    split
    · split
      · exact callsAll_throwJS _ _
      · next parts hparts =>
        apply callsAll_emitAll
        intro e he c hc
        simp only [scheduleParts, List.mem_map] at he
        obtain ⟨ip, hip, rfl⟩ := he
        simp only [sendContent, sendContent_deliver, Option.some.injEq] at hc
        subst hc
        have hmem : ip.2 ∈ parts := List.snd_mem_of_mem_enumFrom hip
        exact matchParts_length_le m parts hparts _ hmem
    · next hlen =>
      apply callsAll_emit
      intro c hc
      rw [sendContent_deliver] at hc
      simp only [Option.some.injEq] at hc
      subst hc
      omega

/-- The only calls of `getAIResponse` are requests to a backend. -/
theorem getAIResponse_calls_post (w : World) (message username : JSString)
    (bot : MinecraftBot) :
    ∀ e ∈ (getAIResponse w message username bot).calls, ∃ request, e = .post request := by
  intro e he
  by_cases h1 : bot.currentAIModel = "chatgpt".toList
  · rw [getAIResponse_chatgpt w message username bot h1, getChatGPTResponse_eq] at he
    split at he <;> exact ⟨_, List.mem_singleton.mp he⟩
  · by_cases h2 : bot.currentAIModel = "gemini".toList
    · rw [getAIResponse_gemini w message username bot h2, getGeminiResponse_eq] at he
      split at he <;> exact ⟨_, List.mem_singleton.mp he⟩
    · by_cases h3 : bot.currentAIModel = "deepseek".toList
      · rw [getAIResponse_deepseek w message username bot h3, getDeepseekResponse_eq] at he
        split at he <;> exact ⟨_, List.mem_singleton.mp he⟩
      · rw [getAIResponse_default w message username bot h1 h2 h3,
          getChatGPTResponse_eq] at he
        split at he <;> exact ⟨_, List.mem_singleton.mp he⟩

theorem processAIResponse_short (w : World) (speaker message : JSString)
    (isWhisper : Bool) :
    CallsAll (fun e => ∀ c, sendContent speaker e = some c → c.length ≤ 100)
      (processAIResponse w speaker message isWhisper) := by
  have hfallback : ∀ _err : JSError,
      CallsAll (fun e => ∀ c, sendContent speaker e = some c → c.length ≤ 100)
        (sendResponse speaker
          (some "Sorry, I'm having trouble thinking right now!".toList) isWhisper) :=
    fun _ => sendResponse_short _ _ _
  have hai : CallsAll (fun e => ∀ c, sendContent speaker e = some c → c.length ≤ 100)
      (getAIResponse w message speaker >>= fun r => sendResponse speaker r isWhisper) := by
    apply callsAll_bind
    · constructor
      intro bot e he c hc
      obtain ⟨request, rfl⟩ := getAIResponse_calls_post w message speaker bot e he
      cases hc
    · intro r
      exact sendResponse_short _ _ _
  unfold processAIResponse
  apply callsAll_tryCatch _ hfallback
  by_cases hsw : startsWith (toLowerCase message) "switch to ".toList = true
  · by_cases hm : trim (removeFirst "switch to ".toList (toLowerCase message))
        ∈ ["chatgpt".toList, "gemini".toList, "deepseek".toList]
    · simp only [hsw, if_true, hm]
      apply callsAll_bind
      · constructor
        intro bot e he
        cases he
      · intro _
        apply callsAll_bind (sendResponse_short _ _ _)
        intro _
        exact callsAll_pure _ _
    · simp only [hsw, if_true, hm, if_false]
      exact hai
  · simp only [hsw, if_false, Bool.false_eq_true]
    exact hai

theorem onChat_short (w : World) (speaker message : JSString) :
    CallsAll (fun e => ∀ c, sendContent speaker e = some c → c.length ≤ 100)
      (onChat w speaker message) := by
  unfold onChat handleChatMessage
  split
  · exact callsAll_pure _ _
  · split
    · dsimp only
      split
      · exact processAIResponse_short _ _ _ _
      · exact callsAll_pure _ _
    · exact callsAll_pure _ _

/-- C11, counterexample. `Steve` types `!help`. The command listener sends the list of
commands, 156 characters long, in a single call of `bot.chat`: the reply is not split. -/
theorem help_reply_is_not_split :
    onCommand sampleWorld "Steve".toList "!help".toList sampleBot
      = ⟨.ok (), sampleBot,
          [.chat "Available commands: !help, !ping, !time, !players, !follow <player>, !sethome, !base, !team <player>, !find <structure>, !stop, !home, !switch to [ai_model]".toList]⟩ ∧
    "Available commands: !help, !ping, !time, !players, !follow <player>, !sethome, !base, !team <player>, !find <structure>, !stop, !home, !switch to [ai_model]".toList.length
      = 156 ∧
    ¬ SplitBeforeSending "Steve".toList
      (onCommand sampleWorld "Steve".toList "!help".toList sampleBot).calls := by
  refine ⟨rfl, by decide, ?_⟩
  intro h
  have h2 := h _ (List.mem_singleton.mpr rfl) _ rfl
  revert h2
  decide

/-- C11, amended. On the AI path, that is for every chat line handled by the listener of
`setupEventHandlers` and for every whisper, whatever the session and whatever the backend
answers, no chat or whisper call, sent at once or by a timer, carries more than 100
characters of message content, the prefix `@speaker ` not counted. -/
theorem ai_path_sends_at_most_100 (w : World) (speaker message : JSString)
    (bot : MinecraftBot) :
    SplitBeforeSending speaker (onChat w speaker message bot).calls ∧
    SplitBeforeSending speaker (onWhisper w speaker message bot).calls :=
  ⟨(onChat_short w speaker message).all bot,
    (processAIResponse_short w speaker message true).all bot⟩

/-! ### The command listener, command by command -/

theorem headD_eq_cons (args : List JSString) (c : JSString) (hc : c ≠ [])
    (h : args.headD [] = c) : ∃ rest, args = c :: rest := by
  cases args with
  | nil => exact absurd h.symm hc
  | cons a rest => exact ⟨rest, by simp only [List.headD_cons] at h; rw [h]⟩

theorem onCommand_help (w : World) (speaker message : JSString) (bot : MinecraftBot)
    (rest : List JSString) (h : speaker ≠ w.username)
    (hargs : split (toLowerCase message) ' ' = "!help".toList :: rest) :
    onCommand w speaker message bot = ⟨.ok (), bot,
      [.chat "Available commands: !help, !ping, !time, !players, !follow <player>, !sethome, !base, !team <player>, !find <structure>, !stop, !home, !switch to [ai_model]".toList]⟩ := by
  unfold onCommand
  rw [if_neg h, hargs]
  rfl

theorem onCommand_ping (w : World) (speaker message : JSString) (bot : MinecraftBot)
    (rest : List JSString) (h : speaker ≠ w.username)
    (hargs : split (toLowerCase message) ' ' = "!ping".toList :: rest) :
    onCommand w speaker message bot = ⟨.ok (), bot,
      [.chat ("Pong! Using ".toList ++ toUpperCase bot.currentAIModel ++ " model".toList)]⟩ := by
  unfold onCommand
  rw [if_neg h, hargs]
  rfl

theorem onCommand_time (w : World) (speaker message : JSString) (bot : MinecraftBot)
    (rest : List JSString) (h : speaker ≠ w.username)
    (hargs : split (toLowerCase message) ' ' = "!time".toList :: rest) :
    onCommand w speaker message bot
      = ⟨.ok (), bot, [.chat ("Current time: ".toList ++ w.now)]⟩ := by
  unfold onCommand
  rw [if_neg h, hargs]
  rfl

theorem onCommand_players (w : World) (speaker message : JSString) (bot : MinecraftBot)
    (rest : List JSString) (h : speaker ≠ w.username)
    (hargs : split (toLowerCase message) ' ' = "!players".toList :: rest) :
    onCommand w speaker message bot = ⟨.ok (), bot,
      [.chat ("Online players: ".toList ++ join ", ".toList (w.players.map Prod.fst))]⟩ := by
  unfold onCommand
  rw [if_neg h, hargs]
  rfl

theorem onCommand_follow_alone (w : World) (speaker message : JSString) (bot : MinecraftBot)
    (h : speaker ≠ w.username)
    (hargs : split (toLowerCase message) ' ' = ["!follow".toList]) :
    onCommand w speaker message bot = ⟨.ok (), bot, []⟩ := by
  unfold onCommand
  rw [if_neg h, hargs]
  rfl

theorem onCommand_follow (w : World) (speaker message : JSString) (bot : MinecraftBot)
    (targetName : JSString) (rest : List JSString) (h : speaker ≠ w.username)
    (hargs : split (toLowerCase message) ' ' = "!follow".toList :: targetName :: rest) :
    onCommand w speaker message bot = followPlayer w targetName bot := by
  have hd : decide (("!follow".toList :: targetName :: rest).length > 1) = true := by
    simp
  have e : followPlayer w targetName bot
      = Handler.bind (followPlayer w targetName) (fun _ => Handler.pure ()) bot := by
    rw [bind_pure_unit]
  unfold onCommand
  rw [if_neg h, hargs, hd, e]
  rfl

theorem onCommand_stop (w : World) (speaker message : JSString) (bot : MinecraftBot)
    (rest : List JSString) (h : speaker ≠ w.username)
    (hargs : split (toLowerCase message) ' ' = "!stop".toList :: rest) :
    onCommand w speaker message bot = stopFollowing w bot := by
  unfold onCommand
  rw [if_neg h, hargs]
  have e : stopFollowing w bot
      = Handler.bind (stopFollowing w) (fun _ => Handler.pure ()) bot := by
    rw [bind_pure_unit]
  rw [e]
  rfl

theorem onCommand_sethome_args (w : World) (speaker message : JSString) (bot : MinecraftBot)
    (rest : List JSString) (h : speaker ≠ w.username)
    (hargs : split (toLowerCase message) ' ' = "!sethome".toList :: rest) :
    onCommand w speaker message bot = setHome w bot := by
  unfold onCommand
  rw [if_neg h, hargs]
  rfl

theorem onCommand_home_args (w : World) (speaker message : JSString) (bot : MinecraftBot)
    (rest : List JSString) (h : speaker ≠ w.username)
    (hargs : split (toLowerCase message) ' ' = "!home".toList :: rest) :
    onCommand w speaker message bot = goHome w bot := by
  unfold onCommand
  rw [if_neg h, hargs]
  have e : goHome w bot = Handler.bind (goHome w) (fun _ => Handler.pure ()) bot := by
    rw [bind_pure_unit]
  rw [e]
  rfl

theorem onCommand_base (w : World) (speaker message : JSString) (bot : MinecraftBot)
    (rest : List JSString) (h : speaker ≠ w.username)
    (hargs : split (toLowerCase message) ' ' = "!base".toList :: rest) :
    onCommand w speaker message bot = setBase w bot := by
  unfold onCommand
  rw [if_neg h, hargs]
  rfl

theorem onCommand_team_alone (w : World) (speaker message : JSString) (bot : MinecraftBot)
    (h : speaker ≠ w.username)
    (hargs : split (toLowerCase message) ' ' = ["!team".toList]) :
    onCommand w speaker message bot = ⟨.ok (), bot, []⟩ := by
  unfold onCommand
  rw [if_neg h, hargs]
  rfl

theorem onCommand_team (w : World) (speaker message : JSString) (bot : MinecraftBot)
    (playerName : JSString) (rest : List JSString) (h : speaker ≠ w.username)
    (hargs : split (toLowerCase message) ' ' = "!team".toList :: playerName :: rest) :
    onCommand w speaker message bot = addToTeam w playerName bot := by
  have hd : decide (("!team".toList :: playerName :: rest).length > 1) = true := by
    simp
  have e : addToTeam w playerName bot
      = Handler.bind (addToTeam w playerName) (fun _ => Handler.pure ()) bot := by
    rw [bind_pure_unit]
  unfold onCommand
  rw [if_neg h, hargs, hd, e]
  rfl

theorem onCommand_find_alone (w : World) (speaker message : JSString) (bot : MinecraftBot)
    (h : speaker ≠ w.username)
    (hargs : split (toLowerCase message) ' ' = ["!find".toList]) :
    onCommand w speaker message bot = ⟨.ok (), bot, []⟩ := by
  unfold onCommand
  rw [if_neg h, hargs]
  rfl

theorem onCommand_find (w : World) (speaker message : JSString) (bot : MinecraftBot)
    (first : JSString) (rest : List JSString) (h : speaker ≠ w.username)
    (hargs : split (toLowerCase message) ' ' = "!find".toList :: first :: rest) :
    onCommand w speaker message bot
      = findStructure w (join " ".toList (first :: rest)) bot := by
  have hd : decide (("!find".toList :: first :: rest).length > 1) = true := by
    simp
  have e : findStructure w (join " ".toList (first :: rest)) bot
      = Handler.bind (findStructure w (join " ".toList (first :: rest)))
          (fun _ => Handler.pure ()) bot := by
    rw [bind_pure_unit]
  unfold onCommand
  rw [if_neg h, hargs, hd, e]
  rfl

theorem onCommand_teamlist (w : World) (speaker message : JSString) (bot : MinecraftBot)
    (rest : List JSString) (h : speaker ≠ w.username)
    (hargs : split (toLowerCase message) ' ' = "!teamlist".toList :: rest) :
    onCommand w speaker message bot = listTeamMembers bot := by
  unfold onCommand
  rw [if_neg h, hargs]
  have e : listTeamMembers bot
      = Handler.bind listTeamMembers (fun _ => Handler.pure ()) bot := by
    rw [bind_pure_unit]
  rw [e]
  rfl

theorem onCommand_removeteam_alone (w : World) (speaker message : JSString) (bot : MinecraftBot)
    (h : speaker ≠ w.username)
    (hargs : split (toLowerCase message) ' ' = ["!removeteam".toList]) :
    onCommand w speaker message bot = ⟨.ok (), bot, []⟩ := by
  unfold onCommand
  rw [if_neg h, hargs]
  rfl

theorem onCommand_removeteam (w : World) (speaker message : JSString) (bot : MinecraftBot)
    (playerName : JSString) (rest : List JSString) (h : speaker ≠ w.username)
    (hargs : split (toLowerCase message) ' ' = "!removeteam".toList :: playerName :: rest) :
    onCommand w speaker message bot = removeFromTeam playerName bot := by
  have hd : decide (("!removeteam".toList :: playerName :: rest).length > 1) = true := by
    simp
  unfold onCommand
  rw [if_neg h, hargs, hd]
  rfl

theorem onCommand_other (w : World) (speaker message : JSString) (bot : MinecraftBot)
    (h : speaker ≠ w.username)
    (h1 : (split (toLowerCase message) ' ').headD [] ≠ "!help".toList)
    (h2 : (split (toLowerCase message) ' ').headD [] ≠ "!ping".toList)
    (h3 : (split (toLowerCase message) ' ').headD [] ≠ "!time".toList)
    (h4 : (split (toLowerCase message) ' ').headD [] ≠ "!players".toList)
    (h5 : (split (toLowerCase message) ' ').headD [] ≠ "!follow".toList)
    (h6 : (split (toLowerCase message) ' ').headD [] ≠ "!stop".toList)
    (h7 : (split (toLowerCase message) ' ').headD [] ≠ "!sethome".toList)
    (h8 : (split (toLowerCase message) ' ').headD [] ≠ "!home".toList)
    (h9 : (split (toLowerCase message) ' ').headD [] ≠ "!base".toList)
    (h10 : (split (toLowerCase message) ' ').headD [] ≠ "!team".toList)
    (h11 : (split (toLowerCase message) ' ').headD [] ≠ "!find".toList)
    (h12 : (split (toLowerCase message) ' ').headD [] ≠ "!teamlist".toList)
    (h13 : (split (toLowerCase message) ' ').headD [] ≠ "!removeteam".toList) :
    onCommand w speaker message bot = ⟨.ok (), bot, []⟩ := by
  unfold onCommand
  rw [if_neg h]
  simp only [h1, h2, h3, h4, h5, h6, h7, h8, h9, h10, h11, h12, h13, if_false,
    decide_False, Bool.false_and, Bool.false_eq_true]
  rfl

/-! ### C12: stopping -/

theorem stopFollowing_eq (w : World) (bot : MinecraftBot) :
    stopFollowing w bot =
      if w.pathfinder then
        ⟨.ok (), { bot with isFollowing := false, followTarget := none },
          [.setGoal none, .chat "Stopped following.".toList]⟩
      else
        ⟨.error (.typeError "Cannot read properties of undefined (reading 'setGoal')"),
          { bot with isFollowing := false, followTarget := none }, []⟩ := by
  unfold stopFollowing
  cases w.pathfinder <;> rfl

/-- With the pathfinder loaded, `!stop` from another speaker does not fail, leaves the
session not following and without target, clears the goal of the pathfinder and says
`Stopped following.`. -/
theorem stop_with_pathfinder (w : World) (speaker message : JSString) (bot : MinecraftBot)
    (rest : List JSString) (h : speaker ≠ w.username)
    (hargs : split (toLowerCase message) ' ' = "!stop".toList :: rest)
    (hp : w.pathfinder = true) :
    onCommand w speaker message bot
      = ⟨.ok (), { bot with isFollowing := false, followTarget := none },
          [.setGoal none, .chat "Stopped following.".toList]⟩ := by
  rw [onCommand_stop w speaker message bot rest h hargs, stopFollowing_eq, if_pos hp]

/-- Without the pathfinder, `!stop` from another speaker throws, from whatever session: the
follow state is reset, and nothing is said. -/
theorem stop_without_pathfinder (w : World) (speaker message : JSString)
    (bot : MinecraftBot) (rest : List JSString) (h : speaker ≠ w.username)
    (hargs : split (toLowerCase message) ' ' = "!stop".toList :: rest)
    (hp : w.pathfinder = false) :
    onCommand w speaker message bot
      = ⟨.error (.typeError "Cannot read properties of undefined (reading 'setGoal')"),
          { bot with isFollowing := false, followTarget := none }, []⟩ := by
  rw [onCommand_stop w speaker message bot rest h hargs, stopFollowing_eq, hp]
  rfl

/-- C12, the code at the failing input. The pathfinder plugin is not loaded, the bot follows
`alice`, and `Steve` types `!stop`. The follow state is reset, then reading `setGoal` from
the missing `bot.pathfinder` throws a `TypeError`: the listener raises an error, and the
message `Stopped following.` is not sent. With the pathfinder loaded the same line ends
without error, with the goal cleared and the message sent. -/
theorem stop_throws_without_pathfinder :
    onCommand { sampleWorld with pathfinder := false } "Steve".toList "!stop".toList
        { sampleBot with isFollowing := true, followTarget := some "alice".toList }
      = ⟨.error (.typeError "Cannot read properties of undefined (reading 'setGoal')"),
          sampleBot, []⟩ ∧
    sampleBot.isFollowing = false ∧ sampleBot.followTarget = none ∧
    onCommand sampleWorld "Steve".toList "!stop".toList
        { sampleBot with isFollowing := true, followTarget := some "alice".toList }
      = ⟨.ok (), sampleBot, [.setGoal none, .chat "Stopped following.".toList]⟩ := by
  refine ⟨rfl, rfl, rfl, rfl⟩

/-! ### C14: one reply per command -/

theorem goHome_chatCount (w : World) (bot : MinecraftBot) :
    chatCount (goHome w bot).calls
      = if w.pathfinder = false ∧ bot.homeLocation ≠ none then 2 else 1 := by
  cases hh : bot.homeLocation with
  | none =>
    have e : goHome w bot
        = ⟨.ok (), bot, [.chat "No home location set! Use !sethome first.".toList]⟩ := by
      simp only [goHome, bind, Handler.bind, getBot, hh]
      rfl
    rw [e]
    simp [chatCount, isPublicChat]
  | some home =>
    rw [goHome_of_home w bot home hh]
    cases w.pathfinder <;> simp [chatCount, isPublicChat]

theorem addToTeam_chatCount (w : World) (playerName : JSString) (bot : MinecraftBot) :
    chatCount (addToTeam w playerName bot).calls = 1 := by
  unfold addToTeam
  cases playerNamed w playerName <;> rfl

theorem removeFromTeam_chatCount (playerName : JSString) (bot : MinecraftBot) :
    chatCount (removeFromTeam playerName bot).calls = 1 := by
  by_cases h : playerName ∈ bot.teamMembers
  · simp only [removeFromTeam, bind, Handler.bind, getBot, h, if_true]
    rfl
  · rw [removeFromTeam_absent playerName bot h]
    rfl

theorem listTeamMembers_chatCount (bot : MinecraftBot) :
    chatCount (listTeamMembers bot).calls = 1 := by
  by_cases h : bot.teamMembers.length = 0
  · simp only [listTeamMembers, bind, Handler.bind, getBot, h, if_true]
    rfl
  · simp only [listTeamMembers, bind, Handler.bind, getBot, h, if_false]
    rfl

theorem stopFollowing_chatCount (w : World) (bot : MinecraftBot) :
    chatCount (stopFollowing w bot).calls ≤ 1 := by
  rw [stopFollowing_eq]
  cases w.pathfinder <;> simp [chatCount, isPublicChat]

theorem onCommand_chatCount_le_one (w : World) (speaker message : JSString)
    (bot : MinecraftBot) (h : speaker ≠ w.username)
    (hc : (split (toLowerCase message) ' ').headD [] ∈ singleReplyCommands)
    (hhome : (split (toLowerCase message) ' ').headD [] ≠ "!home".toList) :
    chatCount (onCommand w speaker message bot).calls ≤ 1 := by
  simp only [singleReplyCommands, List.mem_cons, List.mem_singleton, List.not_mem_nil,
    or_false] at hc
  rcases hc with hc | hc | hc | hc | hc | hc | hc | hc | hc | hc | hc
  · obtain ⟨rest, hargs⟩ := headD_eq_cons _ _ (by decide) hc
    rw [onCommand_help w speaker message bot rest h hargs]
    exact le_refl _
  · obtain ⟨rest, hargs⟩ := headD_eq_cons _ _ (by decide) hc
    rw [onCommand_ping w speaker message bot rest h hargs]
    exact le_refl _
  · obtain ⟨rest, hargs⟩ := headD_eq_cons _ _ (by decide) hc
    rw [onCommand_time w speaker message bot rest h hargs]
    exact le_refl _
  · obtain ⟨rest, hargs⟩ := headD_eq_cons _ _ (by decide) hc
    rw [onCommand_players w speaker message bot rest h hargs]
    exact le_refl _
  · obtain ⟨rest, hargs⟩ := headD_eq_cons _ _ (by decide) hc
    rw [onCommand_stop w speaker message bot rest h hargs]
    exact stopFollowing_chatCount w bot
  · obtain ⟨rest, hargs⟩ := headD_eq_cons _ _ (by decide) hc
    rw [onCommand_sethome_args w speaker message bot rest h hargs]
    exact le_refl _
  · exact absurd hc hhome
  · obtain ⟨rest, hargs⟩ := headD_eq_cons _ _ (by decide) hc
    rw [onCommand_base w speaker message bot rest h hargs]
    exact le_refl _
  · obtain ⟨rest, hargs⟩ := headD_eq_cons _ _ (by decide) hc
    cases rest with
    | nil =>
      rw [onCommand_team_alone w speaker message bot h hargs]
      exact Nat.zero_le _
    | cons playerName rest =>
      rw [onCommand_team w speaker message bot playerName rest h hargs,
        addToTeam_chatCount]
  · obtain ⟨rest, hargs⟩ := headD_eq_cons _ _ (by decide) hc
    rw [onCommand_teamlist w speaker message bot rest h hargs, listTeamMembers_chatCount]
  · obtain ⟨rest, hargs⟩ := headD_eq_cons _ _ (by decide) hc
    cases rest with
    | nil =>
      rw [onCommand_removeteam_alone w speaker message bot h hargs]
      exact Nat.zero_le _
    | cons playerName rest =>
      rw [onCommand_removeteam w speaker message bot playerName rest h hargs,
        removeFromTeam_chatCount]

/-- C14, counterexample. The pathfinder is not loaded, the home is set at `(10, 64, -4)`,
and `Steve` types `!home`. The listener sends two public chat messages: the announcement of
`goHome` and the one of the fallback of `navigateToLocation`. -/
theorem home_without_pathfinder_sends_two :
    (split (toLowerCase "!home".toList) ' ').headD [] ∈ singleReplyCommands ∧
    (onCommand { sampleWorld with pathfinder := false } "Steve".toList "!home".toList
        { sampleBot with
          homeLocation := some ⟨10, 64, -4, "overworld".toList⟩ }).calls
      = [.chat "Going home to 10, 64, -4".toList,
         .lookAt ⟨((10 : Int) : ℚ), ((64 : Int) : ℚ), ((-4 : Int) : ℚ)⟩,
         .chat "Heading to 10, 64, -4...".toList] ∧
    chatCount (onCommand { sampleWorld with pathfinder := false } "Steve".toList
        "!home".toList
        { sampleBot with
          homeLocation := some ⟨10, 64, -4, "overworld".toList⟩ }).calls = 2 ∧
    ¬ chatCount (onCommand { sampleWorld with pathfinder := false } "Steve".toList
        "!home".toList
        { sampleBot with
          homeLocation := some ⟨10, 64, -4, "overworld".toList⟩ }).calls ≤ 1 := by
  have e := goHome_of_home { sampleWorld with pathfinder := false }
    { sampleBot with homeLocation := some ⟨10, 64, -4, "overworld".toList⟩ }
    ⟨10, 64, -4, "overworld".toList⟩ rfl
  have hc : coordinates ⟨10, 64, -4, "overworld".toList⟩ = "10, 64, -4".toList := by decide
  rw [onCommand_home _ _ _ (by decide), e, hc]
  refine ⟨by decide, rfl, rfl, by decide⟩

/-- C14, amended. Let a chat line from another speaker have as its first token, letter case
ignored, one of `!help`, `!ping`, `!time`, `!players`, `!stop`, `!sethome`, `!home`, `!base`,
`!team`, `!teamlist`, `!removeteam`, in any session and world. Then the command listener
sends at most one public chat message, except in one case: `!home` with a home set and
without the pathfinder sends exactly two (`Going home to ...` and `Heading to ...`). -/
theorem onCommand_single_reply (w : World) (speaker message : JSString) (bot : MinecraftBot)
    (h : speaker ≠ w.username)
    (hc : (split (toLowerCase message) ' ').headD [] ∈ singleReplyCommands) :
    (¬ ((split (toLowerCase message) ' ').headD [] = "!home".toList ∧
        w.pathfinder = false ∧ bot.homeLocation ≠ none) →
      chatCount (onCommand w speaker message bot).calls ≤ 1) ∧
    ((split (toLowerCase message) ' ').headD [] = "!home".toList ∧
        w.pathfinder = false ∧ bot.homeLocation ≠ none →
      chatCount (onCommand w speaker message bot).calls = 2) := by
  by_cases hhome : (split (toLowerCase message) ' ').headD [] = "!home".toList
  · obtain ⟨rest, hargs⟩ := headD_eq_cons _ _ (by decide) hhome
    rw [onCommand_home_args w speaker message bot rest h hargs, goHome_chatCount]
    constructor
    · intro hn
      have hn2 : ¬ (w.pathfinder = false ∧ bot.homeLocation ≠ none) :=
        fun hx => hn ⟨hhome, hx⟩
      rw [if_neg hn2]
    · intro hx
      rw [if_pos hx.2]
  · constructor
    · intro _
      exact onCommand_chatCount_le_one w speaker message bot h hc hhome
    · intro hx
      exact absurd hx.1 hhome

/-- C14, witness of the amended claim: `Steve` types `!home` with the home set and the
pathfinder loaded; one public chat message is sent. -/
theorem onCommand_single_reply_witness :
    "Steve".toList ≠ sampleWorld.username ∧
    (split (toLowerCase "!home".toList) ' ').headD [] ∈ singleReplyCommands ∧
    chatCount (onCommand sampleWorld "Steve".toList "!home".toList
      { sampleBot with homeLocation := some ⟨10, 64, -4, "overworld".toList⟩ }).calls ≤ 1 :=
  ⟨by decide, by decide,
    (onCommand_single_reply sampleWorld "Steve".toList "!home".toList
      { sampleBot with homeLocation := some ⟨10, 64, -4, "overworld".toList⟩ }
      (by decide) (by decide)).1 (fun hx => Bool.noConfusion hx.2.1)⟩

/-! ### C13: register once, then log in -/

theorem keepsFlag_pure {α : Type} (a : α) : KeepsFlag (pure a : Handler α) := ⟨fun _ => rfl⟩

theorem keepsFlag_bind {α β : Type} {m : Handler α} {f : α → Handler β}
    (hm : KeepsFlag m) (hf : ∀ a, KeepsFlag (f a)) : KeepsFlag (m >>= f) := by
  constructor
  intro bot
  show (Handler.bind m f bot).bot.isRegistered = bot.isRegistered
  unfold Handler.bind
  have h1 := hm.keeps bot
  rcases h : m bot with ⟨r, b, c⟩
  rw [h] at h1
  rcases r with e | a
  · exact h1
  · have h2 := (hf a).keeps b
    simp only
    rw [← h1]
    exact h2

theorem keepsFlag_emit (e : Effect) : KeepsFlag (emit e) := ⟨fun _ => rfl⟩
theorem keepsFlag_emitAll (es : List Effect) : KeepsFlag (emitAll es) := ⟨fun _ => rfl⟩
theorem keepsFlag_getBot : KeepsFlag getBot := ⟨fun _ => rfl⟩
theorem keepsFlag_throwJS {α : Type} (e : JSError) : KeepsFlag (throwJS e : Handler α) :=
  ⟨fun _ => rfl⟩
theorem keepsFlag_modifyBot (f : MinecraftBot → MinecraftBot)
    (hf : ∀ bot, (f bot).isRegistered = bot.isRegistered) : KeepsFlag (modifyBot f) :=
  ⟨fun bot => hf bot⟩
theorem keepsFlag_ite {α : Type} (c : Prop) [Decidable c] {a b : Handler α}
    (ha : KeepsFlag a) (hb : KeepsFlag b) : KeepsFlag (if c then a else b) := by
  split <;> assumption
theorem keepsFlag_tryCatch {α : Type} {body : Handler α} {handler : JSError → Handler α}
    (hb : KeepsFlag body) (hh : ∀ e, KeepsFlag (handler e)) :
    KeepsFlag (tryCatch body handler) := by
  constructor
  intro bot
  unfold MinecraftAI.tryCatch
  have h1 := hb.keeps bot
  rcases h : body bot with ⟨r, b, c⟩
  rw [h] at h1
  rcases r with e | a
  · have h2 := (hh e).keeps b
    simp only
    rw [← h1]
    exact h2
  · exact h1

theorem keepsFlag_navigateToLocation (w : World) (l : Vec3) :
    KeepsFlag (navigateToLocation w l) := by
  unfold navigateToLocation
  repeat' first
    | exact keepsFlag_emit _
    | exact keepsFlag_pure _
    | apply keepsFlag_bind
    | apply keepsFlag_ite
    | intro _

theorem keepsFlag_stopFollowing (w : World) : KeepsFlag (stopFollowing w) := by
  unfold stopFollowing
  try dsimp only
  repeat' first
    | exact keepsFlag_emit _
    | exact keepsFlag_pure _
    | exact keepsFlag_throwJS _
    | exact keepsFlag_modifyBot _ (fun _ => rfl)
    | apply keepsFlag_bind
    | apply keepsFlag_ite
    | intro _

theorem keepsFlag_exploreRandomly (w : World) : KeepsFlag (exploreRandomly w) := by
  unfold exploreRandomly
  try dsimp only
  repeat' first
    | exact keepsFlag_emit _
    | exact keepsFlag_navigateToLocation _ _
    | apply keepsFlag_bind
    | intro _

theorem keepsFlag_findNearbyVillage (w : World) : KeepsFlag (findNearbyVillage w) := by
  unfold findNearbyVillage
  repeat' first
    | exact keepsFlag_emit _
    | exact keepsFlag_navigateToLocation _ _
    | exact keepsFlag_exploreRandomly _
    | apply keepsFlag_bind
    | intro _
    | split

theorem keepsFlag_findNearbyMine (w : World) : KeepsFlag (findNearbyMine w) := by
  unfold findNearbyMine findBlocks
  repeat' first
    | exact keepsFlag_emit _
    | exact keepsFlag_pure _
    | exact keepsFlag_navigateToLocation _ _
    | exact keepsFlag_exploreRandomly _
    | apply keepsFlag_bind
    | intro _
    | split

theorem keepsFlag_findNearbyWater (w : World) : KeepsFlag (findNearbyWater w) := by
  unfold findNearbyWater findBlocks
  try dsimp only
  repeat' first
    | exact keepsFlag_emit _
    | exact keepsFlag_pure _
    | exact keepsFlag_getBot
    | exact keepsFlag_throwJS _
    | exact keepsFlag_emitAll _
    | exact keepsFlag_modifyBot _ (fun _ => rfl)
    | exact keepsFlag_navigateToLocation _ _
    | exact keepsFlag_exploreRandomly _
    | apply keepsFlag_bind
    | apply keepsFlag_ite
    | intro _
    | split

theorem keepsFlag_findNearbyLava (w : World) : KeepsFlag (findNearbyLava w) := by
  unfold findNearbyLava findBlocks
  try dsimp only
  repeat' first
    | exact keepsFlag_emit _
    | exact keepsFlag_pure _
    | exact keepsFlag_getBot
    | exact keepsFlag_throwJS _
    | exact keepsFlag_emitAll _
    | exact keepsFlag_modifyBot _ (fun _ => rfl)
    | exact keepsFlag_navigateToLocation _ _
    | exact keepsFlag_exploreRandomly _
    | apply keepsFlag_bind
    | apply keepsFlag_ite
    | intro _
    | split

theorem keepsFlag_findNearbyTrees (w : World) : KeepsFlag (findNearbyTrees w) := by
  unfold findNearbyTrees findBlocks
  try dsimp only
  repeat' first
    | exact keepsFlag_emit _
    | exact keepsFlag_pure _
    | exact keepsFlag_getBot
    | exact keepsFlag_throwJS _
    | exact keepsFlag_emitAll _
    | exact keepsFlag_modifyBot _ (fun _ => rfl)
    | exact keepsFlag_navigateToLocation _ _
    | exact keepsFlag_exploreRandomly _
    | apply keepsFlag_bind
    | apply keepsFlag_ite
    | intro _
    | split

theorem keepsFlag_findNearbyStone (w : World) : KeepsFlag (findNearbyStone w) := by
  unfold findNearbyStone findBlocks
  try dsimp only
  repeat' first
    | exact keepsFlag_emit _
    | exact keepsFlag_pure _
    | exact keepsFlag_getBot
    | exact keepsFlag_throwJS _
    | exact keepsFlag_emitAll _
    | exact keepsFlag_modifyBot _ (fun _ => rfl)
    | exact keepsFlag_navigateToLocation _ _
    | exact keepsFlag_exploreRandomly _
    | apply keepsFlag_bind
    | apply keepsFlag_ite
    | intro _
    | split

theorem keepsFlag_findNearbyOre (w : World) (oreType : JSString) : KeepsFlag (findNearbyOre w oreType) := by
  unfold findNearbyOre findBlocks
  try dsimp only
  repeat' first
    | exact keepsFlag_emit _
    | exact keepsFlag_pure _
    | exact keepsFlag_getBot
    | exact keepsFlag_throwJS _
    | exact keepsFlag_emitAll _
    | exact keepsFlag_modifyBot _ (fun _ => rfl)
    | exact keepsFlag_navigateToLocation _ _
    | exact keepsFlag_exploreRandomly _
    | apply keepsFlag_bind
    | apply keepsFlag_ite
    | intro _
    | split

theorem keepsFlag_followPlayer (w : World) (targetName : JSString) : KeepsFlag (followPlayer w targetName) := by
  unfold followPlayer startFollowLoop
  try dsimp only
  repeat' first
    | exact keepsFlag_emit _
    | exact keepsFlag_pure _
    | exact keepsFlag_getBot
    | exact keepsFlag_throwJS _
    | exact keepsFlag_emitAll _
    | exact keepsFlag_modifyBot _ (fun _ => rfl)
    | exact keepsFlag_navigateToLocation _ _
    | exact keepsFlag_exploreRandomly _
    | apply keepsFlag_bind
    | apply keepsFlag_ite
    | intro _
    | split

theorem keepsFlag_setHome (w : World) : KeepsFlag (setHome w) := by
  unfold setHome
  try dsimp only
  repeat' first
    | exact keepsFlag_emit _
    | exact keepsFlag_pure _
    | exact keepsFlag_getBot
    | exact keepsFlag_throwJS _
    | exact keepsFlag_emitAll _
    | exact keepsFlag_modifyBot _ (fun _ => rfl)
    | exact keepsFlag_navigateToLocation _ _
    | exact keepsFlag_exploreRandomly _
    | apply keepsFlag_bind
    | apply keepsFlag_ite
    | intro _

theorem keepsFlag_goHome (w : World) : KeepsFlag (goHome w) := by
  unfold goHome
  try dsimp only
  repeat' first
    | exact keepsFlag_emit _
    | exact keepsFlag_pure _
    | exact keepsFlag_getBot
    | exact keepsFlag_throwJS _
    | exact keepsFlag_emitAll _
    | exact keepsFlag_modifyBot _ (fun _ => rfl)
    | exact keepsFlag_navigateToLocation _ _
    | exact keepsFlag_exploreRandomly _
    | apply keepsFlag_bind
    | apply keepsFlag_ite
    | intro _
    | split

theorem keepsFlag_setBase (w : World) : KeepsFlag (setBase w) := by
  unfold setBase
  try dsimp only
  repeat' first
    | exact keepsFlag_emit _
    | exact keepsFlag_pure _
    | exact keepsFlag_getBot
    | exact keepsFlag_throwJS _
    | exact keepsFlag_emitAll _
    | exact keepsFlag_modifyBot _ (fun _ => rfl)
    | exact keepsFlag_navigateToLocation _ _
    | exact keepsFlag_exploreRandomly _
    | apply keepsFlag_bind
    | apply keepsFlag_ite
    | intro _

theorem keepsFlag_addToTeam (w : World) (playerName : JSString) : KeepsFlag (addToTeam w playerName) := by
  unfold addToTeam
  try dsimp only
  repeat' first
    | exact keepsFlag_emit _
    | exact keepsFlag_pure _
    | exact keepsFlag_getBot
    | exact keepsFlag_throwJS _
    | exact keepsFlag_emitAll _
    | exact keepsFlag_modifyBot _ (fun _ => rfl)
    | exact keepsFlag_navigateToLocation _ _
    | exact keepsFlag_exploreRandomly _
    | apply keepsFlag_bind
    | apply keepsFlag_ite
    | intro _
    | split

theorem keepsFlag_removeFromTeam (playerName : JSString) : KeepsFlag (removeFromTeam playerName) := by
  unfold removeFromTeam
  try dsimp only
  repeat' first
    | exact keepsFlag_emit _
    | exact keepsFlag_pure _
    | exact keepsFlag_getBot
    | exact keepsFlag_throwJS _
    | exact keepsFlag_emitAll _
    | exact keepsFlag_modifyBot _ (fun _ => rfl)
    | exact keepsFlag_navigateToLocation _ _
    | exact keepsFlag_exploreRandomly _
    | apply keepsFlag_bind
    | apply keepsFlag_ite
    | intro _

theorem keepsFlag_listTeamMembers : KeepsFlag listTeamMembers := by
  unfold listTeamMembers
  repeat' first
    | exact keepsFlag_emit _
    | exact keepsFlag_pure _
    | exact keepsFlag_getBot
    | exact keepsFlag_throwJS _
    | exact keepsFlag_emitAll _
    | exact keepsFlag_modifyBot _ (fun _ => rfl)
    | exact keepsFlag_navigateToLocation _ _
    | exact keepsFlag_exploreRandomly _
    | apply keepsFlag_bind
    | apply keepsFlag_ite
    | intro _

theorem keepsFlag_sendResponse (username : JSString) (message : Option JSString) (isWhisper : Bool) : KeepsFlag (sendResponse username message isWhisper) := by
  unfold sendResponse
  try dsimp only
  repeat' first
    | exact keepsFlag_emit _
    | exact keepsFlag_pure _
    | exact keepsFlag_getBot
    | exact keepsFlag_throwJS _
    | exact keepsFlag_emitAll _
    | exact keepsFlag_modifyBot _ (fun _ => rfl)
    | exact keepsFlag_navigateToLocation _ _
    | exact keepsFlag_exploreRandomly _
    | apply keepsFlag_bind
    | apply keepsFlag_ite
    | intro _
    | split

theorem keepsFlag_callSearchFunction (w : World) (f : SearchFunction) :
    KeepsFlag (callSearchFunction w f) := by
  cases f with
  | findNearbyVillage => exact keepsFlag_findNearbyVillage w
  | findNearbyMine => exact keepsFlag_findNearbyMine w
  | findNearbyWater => exact keepsFlag_findNearbyWater w
  | findNearbyLava => exact keepsFlag_findNearbyLava w
  | findNearbyTrees => exact keepsFlag_findNearbyTrees w
  | findNearbyStone => exact keepsFlag_findNearbyStone w
  | findNearbyOre oreType => exact keepsFlag_findNearbyOre w oreType
  | inherited property =>
    unfold callSearchFunction
    repeat' first
      | exact keepsFlag_pure _
      | exact keepsFlag_throwJS _
      | apply keepsFlag_ite

theorem keepsFlag_findStructure (w : World) (structureName : JSString) :
    KeepsFlag (findStructure w structureName) := by
  unfold findStructure
  repeat' first
    | exact keepsFlag_emit _
    | exact keepsFlag_modifyBot _ (fun _ => rfl)
    | exact keepsFlag_callSearchFunction _ _
    | apply keepsFlag_bind
    | intro _
    | split

theorem keepsFlag_getAIResponse (w : World) (message username : JSString) :
    KeepsFlag (getAIResponse w message username) := by
  constructor
  intro bot
  by_cases h1 : bot.currentAIModel = "chatgpt".toList
  · rw [getAIResponse_chatgpt w message username bot h1, getChatGPTResponse_eq]
    split <;> rfl
  · by_cases h2 : bot.currentAIModel = "gemini".toList
    · rw [getAIResponse_gemini w message username bot h2, getGeminiResponse_eq]
      split <;> rfl
    · by_cases h3 : bot.currentAIModel = "deepseek".toList
      · rw [getAIResponse_deepseek w message username bot h3, getDeepseekResponse_eq]
        split <;> rfl
      · rw [getAIResponse_default w message username bot h1 h2 h3, getChatGPTResponse_eq]
        split <;> rfl

theorem keepsFlag_processAIResponse (w : World) (username message : JSString)
    (isWhisper : Bool) : KeepsFlag (processAIResponse w username message isWhisper) := by
  have hai : KeepsFlag
      (getAIResponse w message username >>= fun r => sendResponse username r isWhisper) :=
    keepsFlag_bind (keepsFlag_getAIResponse _ _ _) (fun _ => keepsFlag_sendResponse _ _ _)
  unfold processAIResponse
  apply keepsFlag_tryCatch _ (fun _ => keepsFlag_sendResponse _ _ _)
  by_cases hsw : startsWith (toLowerCase message) "switch to ".toList = true
  · by_cases hm : trim (removeFirst "switch to ".toList (toLowerCase message))
        ∈ ["chatgpt".toList, "gemini".toList, "deepseek".toList]
    · simp only [hsw, if_true, hm]
      repeat' first
        | exact keepsFlag_pure _
        | exact keepsFlag_modifyBot _ (fun _ => rfl)
        | exact keepsFlag_sendResponse _ _ _
        | apply keepsFlag_bind
        | intro _
    · simp only [hsw, if_true, hm, if_false]
      exact hai
  · simp only [hsw, if_false, Bool.false_eq_true]
    exact hai

theorem keepsFlag_onChat (w : World) (username message : JSString) :
    KeepsFlag (onChat w username message) := by
  unfold onChat handleChatMessage
  try dsimp only
  repeat' first
    | exact keepsFlag_pure _
    | exact keepsFlag_processAIResponse _ _ _ _
    | apply keepsFlag_ite

theorem keepsFlag_followTick (w : World) : KeepsFlag (followTick w) := by
  unfold followTick
  try dsimp only
  repeat' first
    | exact keepsFlag_emit _
    | exact keepsFlag_pure _
    | exact keepsFlag_getBot
    | exact keepsFlag_stopFollowing _
    | apply keepsFlag_bind
    | apply keepsFlag_ite
    | intro _
    | split


theorem keepsFlag_onCommand (w : World) (username message : JSString) :
    KeepsFlag (onCommand w username message) := by
  constructor
  intro bot
  by_cases h : username = w.username
  · unfold onCommand
    rw [if_pos h]
    rfl
  by_cases h1 : (split (toLowerCase message) ' ').headD [] = "!help".toList
  · obtain ⟨rest, hargs⟩ := headD_eq_cons _ _ (by decide) h1
    rw [onCommand_help w username message bot rest h hargs]
  by_cases h2 : (split (toLowerCase message) ' ').headD [] = "!ping".toList
  · obtain ⟨rest, hargs⟩ := headD_eq_cons _ _ (by decide) h2
    rw [onCommand_ping w username message bot rest h hargs]
  by_cases h3 : (split (toLowerCase message) ' ').headD [] = "!time".toList
  · obtain ⟨rest, hargs⟩ := headD_eq_cons _ _ (by decide) h3
    rw [onCommand_time w username message bot rest h hargs]
  by_cases h4 : (split (toLowerCase message) ' ').headD [] = "!players".toList
  · obtain ⟨rest, hargs⟩ := headD_eq_cons _ _ (by decide) h4
    rw [onCommand_players w username message bot rest h hargs]
  by_cases h5 : (split (toLowerCase message) ' ').headD [] = "!follow".toList
  · obtain ⟨rest, hargs⟩ := headD_eq_cons _ _ (by decide) h5
    cases rest with
    | nil => rw [onCommand_follow_alone w username message bot h hargs]
    | cons targetName rest =>
      rw [onCommand_follow w username message bot targetName rest h hargs]
      exact (keepsFlag_followPlayer w targetName).keeps bot
  by_cases h6 : (split (toLowerCase message) ' ').headD [] = "!stop".toList
  · obtain ⟨rest, hargs⟩ := headD_eq_cons _ _ (by decide) h6
    rw [onCommand_stop w username message bot rest h hargs]
    exact (keepsFlag_stopFollowing w).keeps bot
  by_cases h7 : (split (toLowerCase message) ' ').headD [] = "!sethome".toList
  · obtain ⟨rest, hargs⟩ := headD_eq_cons _ _ (by decide) h7
    rw [onCommand_sethome_args w username message bot rest h hargs]
    exact (keepsFlag_setHome w).keeps bot
  by_cases h8 : (split (toLowerCase message) ' ').headD [] = "!home".toList
  · obtain ⟨rest, hargs⟩ := headD_eq_cons _ _ (by decide) h8
    rw [onCommand_home_args w username message bot rest h hargs]
    exact (keepsFlag_goHome w).keeps bot
  by_cases h9 : (split (toLowerCase message) ' ').headD [] = "!base".toList
  · obtain ⟨rest, hargs⟩ := headD_eq_cons _ _ (by decide) h9
    rw [onCommand_base w username message bot rest h hargs]
    exact (keepsFlag_setBase w).keeps bot
  by_cases h10 : (split (toLowerCase message) ' ').headD [] = "!team".toList
  · obtain ⟨rest, hargs⟩ := headD_eq_cons _ _ (by decide) h10
    cases rest with
    | nil => rw [onCommand_team_alone w username message bot h hargs]
    | cons playerName rest =>
      rw [onCommand_team w username message bot playerName rest h hargs]
      exact (keepsFlag_addToTeam w playerName).keeps bot
  by_cases h11 : (split (toLowerCase message) ' ').headD [] = "!find".toList
  · obtain ⟨rest, hargs⟩ := headD_eq_cons _ _ (by decide) h11
    cases rest with
    | nil => rw [onCommand_find_alone w username message bot h hargs]
    | cons first rest =>
      rw [onCommand_find w username message bot first rest h hargs]
      exact (keepsFlag_findStructure w _).keeps bot
  by_cases h12 : (split (toLowerCase message) ' ').headD [] = "!teamlist".toList
  · obtain ⟨rest, hargs⟩ := headD_eq_cons _ _ (by decide) h12
    rw [onCommand_teamlist w username message bot rest h hargs]
    exact keepsFlag_listTeamMembers.keeps bot
  by_cases h13 : (split (toLowerCase message) ' ').headD [] = "!removeteam".toList
  · obtain ⟨rest, hargs⟩ := headD_eq_cons _ _ (by decide) h13
    cases rest with
    | nil => rw [onCommand_removeteam_alone w username message bot h hargs]
    | cons playerName rest =>
      rw [onCommand_removeteam w username message bot playerName rest h hargs]
      exact (keepsFlag_removeFromTeam playerName).keeps bot
  rw [onCommand_other w username message bot h h1 h2 h3 h4 h5 h6 h7 h8 h9 h10 h11 h12 h13]

theorem handleAuthentication_eq (w : World) (bot : MinecraftBot) :
    handleAuthentication w bot =
      if bot.isRegistered then
        ⟨.ok (), bot, [.chat ("/login ".toList ++ w.config.password)]⟩
      else
        ⟨.ok (), { bot with isRegistered := true },
          [.chat ("/register ".toList ++ w.config.password ++ " ".toList ++
            w.config.password)]⟩ := by
  unfold handleAuthentication
  cases h : bot.isRegistered
  · simp only [bind, Handler.bind, getBot, h, Bool.false_eq_true, if_false]
    rfl
  · simp only [bind, Handler.bind, getBot, h, if_true]
    rfl

theorem runListener_flag (w : World) (l : Listener) (bot : MinecraftBot) :
    (runListener w l bot).bot.isRegistered = (bot.isRegistered || l.isSpawn) := by
  cases l with
  | spawn =>
    simp only [runListener, onSpawn, handleAuthentication_eq, Listener.isSpawn, Bool.or_true]
    cases h : bot.isRegistered
    · rfl
    · simpa using h
  | disconnect => simp [runListener, onEnd, emit, Listener.isSpawn]
  | chat username message =>
    simp only [runListener, Listener.isSpawn, Bool.or_false]
    exact (keepsFlag_onChat w username message).keeps bot
  | command username message =>
    simp only [runListener, Listener.isSpawn, Bool.or_false]
    exact (keepsFlag_onCommand w username message).keeps bot
  | whisper username message =>
    simp only [runListener, Listener.isSpawn, Bool.or_false, onWhisper, handleWhisperMessage]
    exact (keepsFlag_processAIResponse w username message true).keeps bot
  | followTick =>
    simp only [runListener, Listener.isSpawn, Bool.or_false]
    exact (keepsFlag_followTick w).keeps bot

theorem runListeners_flag (events : List (World × Listener)) :
    ∀ bot, (runListeners events bot).isRegistered
      = (bot.isRegistered || events.any fun e => e.2.isSpawn) := by
  induction events with
  | nil => intro bot; simp [runListeners]
  | cons e rest ih =>
    intro bot
    obtain ⟨w, l⟩ := e
    simp only [runListeners, List.any_cons]
    rw [ih, runListener_flag, Bool.or_assoc]

theorem spawnPasswords_cons (w : World) (l : Listener) (rest : List (World × Listener)) :
    spawnPasswords ((w, l) :: rest)
      = if l.isSpawn then w.config.password :: spawnPasswords rest
        else spawnPasswords rest := by
  unfold spawnPasswords
  cases h : l.isSpawn <;> simp [List.filter_cons, h]

theorem authenticationCalls_eq (events : List (World × Listener)) :
    ∀ bot, authenticationCalls events bot
      = expectedAuthentication bot.isRegistered events := by
  induction events with
  | nil => intro bot; cases h : bot.isRegistered <;> simp [authenticationCalls,
      expectedAuthentication, spawnPasswords]
  | cons e rest ih =>
    intro bot
    obtain ⟨w, l⟩ := e
    have hflag := runListener_flag w l bot
    simp only [authenticationCalls]
    rw [ih, hflag]
    unfold expectedAuthentication
    rw [spawnPasswords_cons]
    cases hl : l.isSpawn
    · simp
    · have hs : l = .spawn := by
        cases l <;> simp [Listener.isSpawn] at hl ⊢
      subst hs
      simp only [runListener, onSpawn, handleAuthentication_eq, Bool.or_true, if_true]
      cases hb : bot.isRegistered <;> simp [loginCommand, registerCommand]

/-- C13. The session starts with the flag `isRegistered` unset. For every sequence of runs
of the listeners and timer callbacks of the bot (`spawn`, `end` with its reconnection,
`chat`, commands, `whisper`, follow ticks), each in the world it finds: the authentication
commands sent are `/register <password> <password>` at the first `spawn` and
`/login <password>` at every later one; a run leaves the flag set if it was set, and sets it
if the run is a `spawn`; so after the runs the flag is set exactly when it was set before or
a `spawn` was among them. -/
theorem registers_once_then_logs_in (config : Config) (events : List (World × Listener))
    (w : World) (l : Listener) (bot : MinecraftBot) :
    (MinecraftBot.new config).isRegistered = false ∧
    authenticationCalls events (MinecraftBot.new config)
      = expectedAuthentication false events ∧
    (runListener w l bot).bot.isRegistered = (bot.isRegistered || l.isSpawn) ∧
    (runListeners events bot).isRegistered
      = (bot.isRegistered || events.any fun e => e.2.isSpawn) :=
  ⟨rfl, authenticationCalls_eq events (MinecraftBot.new config), runListener_flag w l bot,
    runListeners_flag events bot⟩

/-- C13, at a concrete lifetime: three connections with a chat line, a command and two
disconnections in between. The commands sent are one registration and two logins. -/
theorem registers_once_then_logs_in_witness :
    authenticationCalls sampleLifetime (MinecraftBot.new sampleConfig)
      = [.chat "/register secret secret".toList, .chat "/login secret".toList,
         .chat "/login secret".toList] ∧
    (runListeners sampleLifetime (MinecraftBot.new sampleConfig)).isRegistered = true := by
  have h := registers_once_then_logs_in sampleConfig sampleLifetime sampleWorld .spawn
    (MinecraftBot.new sampleConfig)
  refine ⟨?_, ?_⟩
  · rw [h.2.1]
    decide
  · rw [h.2.2.2]
    decide

end MinecraftAI
